import Mathlib

/-! # bukit-dashboard: verification of the API client and onboarding wizard

Shallow embedding of the frontend logic of the bukit-dashboard repository:

* the authenticated API client with token refresh (`src/unnamed/part_001`,
  function `apiFetch` and the token-storage helpers), modelled in `AuthApi`;
* the simpler API client of `src/lib/api.ts`, modelled in `LibApi`;
* the three business-onboarding wizard components of `src/unnamed/part_000`
  (the edit-capable 2-step wizard, the plain 2-step wizard and the 3-step
  wizard), modelled in `EditWizard`, `PlainWizard` and `ThreeStepWizard`.

JavaScript-specific conventions used throughout the embedding:

* a `string | null | undefined` value is an `Option String`; JS truthiness
  of such a value is `strTruthy` (null/undefined and `""` are falsy);
* a JS `Record<string, ...>` object is an insertion-ordered association
  list with unique keys; assignment replaces in place or appends
  (`hset` / `rset`), `delete` removes the key (`hdel`);
* JS numbers appearing here (geo-coordinates, capacities) are modelled as
  rationals; every comparison performed by the code is exact at the values
  involved, and a `NaN` produced by `Number(...)` is conflated with
  `undefined` (`none`), which is observationally equal for all the
  validation logic modelled (the code never distinguishes them);
* network effects are modelled by passing in an environment describing the
  responses the `fetch` calls would produce, and by returning the list of
  requests that were issued.
-/

namespace Bukit

/-- JS truthiness of a `string | null | undefined` value. -/
def strTruthy : Option String → Bool
  | none => false
  | some s => s ≠ ""

/-- JS `a || b` for strings: `b` when `a` is falsy (empty). -/
def jsOrStr (a b : String) : String := if a = "" then b else a

/-- JS `a || b` for a possibly-missing string `a` and a string default. -/
def jsOrOpt (a : Option String) (b : String) : String :=
  match a with
  | some s => if s = "" then b else s
  | none => b

/-- JS `s.trim()`: strips leading and trailing whitespace.  Implemented by
    structural recursion over the character list so that it evaluates in
    the kernel (`String.trim` itself does not). -/
def jsTrim (s : String) : String :=
  String.mk (((s.data.dropWhile Char.isWhitespace).reverse.dropWhile Char.isWhitespace).reverse)

/-- Split a character list at every occurrence of `c` (the list of parts,
    like JS `s.split(c)`). -/
def splitOnChar (c : Char) : List Char → List (List Char)
  | [] => [[]]
  | x :: xs =>
    let r := splitOnChar c xs
    if x = c then [] :: r
    else
      match r with
      | [] => [[x]]
      | y :: ys => (x :: y) :: ys

/-- A JS `Record<string, string>` of HTTP headers. -/
abbrev Headers := List (String × String)

/-- Property read `h[key]`. -/
def hget : Headers → String → Option String
  | [], _ => none
  | (k, v) :: rest, key => if k = key then some v else hget rest key

/-- Property assignment `h[key] = val`: replace in place or append. -/
def hset : Headers → String → String → Headers
  | [], key, val => [(key, val)]
  | (k, v) :: rest, key, val =>
      if k = key then (k, val) :: rest else (k, v) :: hset rest key val

/-- Property deletion `delete h[key]`. -/
def hdel : Headers → String → Headers
  | [], _ => []
  | (k, v) :: rest, key =>
      if k = key then hdel rest key else (k, v) :: hdel rest key

/-- `headers["Content-Type"] = headers["Content-Type"] || "application/json"`. -/
def withDefaultContentType (h : Headers) : Headers :=
  hset h "Content-Type" (jsOrOpt (hget h "Content-Type") "application/json")

namespace AuthApi

/-- The browser-persistent token storage used by `src/unnamed/part_001`
    (localStorage keys "token" and "refresh_token"). -/
structure Storage where
  access : Option String
  refresh : Option String
deriving Repr, DecidableEq

/-- `getAccessToken`. -/
def getAccessToken (st : Storage) : Option String := st.access

/-- `getRefreshToken`. -/
def getRefreshToken (st : Storage) : Option String := st.refresh

/-- `setAuthTokens({accessToken, refreshToken?})`: always stores the access
    token, stores the refresh token only when truthy. -/
def setAuthTokens (st : Storage) (accessToken : String) (refreshToken : Option String) :
    Storage :=
  { access := some accessToken
    refresh := if strTruthy refreshToken then refreshToken else st.refresh }

/-- `clearAuthTokens()`: removes both stored tokens. -/
def clearAuthTokens (_st : Storage) : Storage := { access := none, refresh := none }

/-- The JSON fields of a response body that this client ever reads; `none`
    models an absent field. -/
structure JsonBody where
  message : Option String := none
  access_token : Option String := none
  refresh_token : Option String := none
deriving Repr, DecidableEq

/-- An HTTP response: its status and its JSON body (`none` models a body on
    which `res.json()` rejects). -/
structure Response where
  status : Nat
  body : Option JsonBody := none
deriving Repr, DecidableEq

/-- `res.ok`: status in the 200..299 range. -/
def Response.ok (r : Response) : Bool := 200 ≤ r.status && r.status < 300

/-- The message of the `Error` thrown for a non-ok response:
    `data.message || "Request failed"`, falling back to "Request failed"
    when the body does not parse as JSON. -/
def errorMessage (r : Response) : String :=
  match r.body with
  | some b => jsOrOpt b.message "Request failed"
  | none => "Request failed"

/-- What the caller of `apiFetch` observes. -/
inductive Outcome where
  /-- resolved value; `none` for a 204 No Content (`undefined`) -/
  | success (body : Option JsonBody)
  /-- `throw new Error(message)` for a non-ok final response -/
  | apiError (message : String)
  /-- the underlying `fetch` rejected and the rejection propagated -/
  | networkError
  /-- `res.json()` rejected on an ok final response -/
  | parseError
deriving Repr, DecidableEq

/-- How `apiFetch` turns its final response into the caller-visible outcome
    (the code after the refresh block). -/
def finalize (r : Response) : Outcome :=
  if ¬ r.ok then .apiError (errorMessage r)
  else if r.status = 204 then .success none
  else match r.body with
    | some b => .success (some b)
    | none => .parseError

/-- `attachAuthHeader`: sets the Authorization header from the currently
    stored access token, deleting it when no (truthy) token is stored. -/
def attachAuthHeader (st : Storage) (h : Headers) : Headers :=
  match getAccessToken st with
  | some t => if t ≠ "" then hset h "Authorization" ("Bearer " ++ t) else hdel h "Authorization"
  | none => hdel h "Authorization"

/-- A request issued by `doRequest`, with the headers it carried. -/
structure Request where
  path : String
  headers : Headers
deriving Repr, DecidableEq

/-- The network environment of one `apiFetch` call: the responses that the
    (up to three) `fetch` calls would produce.  `none` models a rejected
    `fetch` promise. -/
structure Env where
  first : Option Response
  refreshResponse : Option Response := none
  second : Option Response := none
deriving Repr, DecidableEq

/-- The observable effects of one `apiFetch` call. -/
structure FetchOut where
  result : Outcome
  store : Storage
  /-- the requests issued to `path` itself: the original one, then the
      retried one if any -/
  requests : List Request
  /-- how many `POST /auth/refresh` calls were attempted -/
  refreshAttempts : Nat
deriving Repr, DecidableEq

/-- `apiFetch(path, options)` of `src/unnamed/part_001`, as a pure function
    of the initial token storage and the network environment.  The option
    headers and whether the body is `FormData` are the only parts of
    `options` the control flow reads. -/
def apiFetch (path : String) (optionHeaders : Headers) (bodyIsFormData : Bool)
    (st : Storage) (env : Env) : FetchOut :=
  let base := if bodyIsFormData then optionHeaders else withDefaultContentType optionHeaders
  let h1 := attachAuthHeader st base
  let req1 : Request := { path := path, headers := h1 }
  match env.first with
  | none => { result := .networkError, store := st, requests := [req1], refreshAttempts := 0 }
  | some res1 =>
    if res1.status = 401 ∧ path ≠ "/auth/login" ∧ path ≠ "/auth/refresh" then
      if strTruthy (getRefreshToken st) then
        match env.refreshResponse with
        | none =>
          { result := finalize res1, store := clearAuthTokens st
            requests := [req1], refreshAttempts := 1 }
        | some rres =>
          if rres.ok then
            match rres.body with
            | none =>
              { result := finalize res1, store := clearAuthTokens st
                requests := [req1], refreshAttempts := 1 }
            | some data =>
              match data.access_token with
              | some newTok =>
                if newTok ≠ "" then
                  let st1 := setAuthTokens st newTok data.refresh_token
                  let h2 := attachAuthHeader st1 h1
                  let req2 : Request := { path := path, headers := h2 }
                  match env.second with
                  | none =>
                    -- the retried `doRequest()` is awaited inside the try
                    -- block: its rejection is caught, both tokens are
                    -- cleared, and `res` remains the original 401 response
                    { result := finalize res1, store := clearAuthTokens st1
                      requests := [req1, req2], refreshAttempts := 1 }
                  | some res2 =>
                    { result := finalize res2, store := st1
                      requests := [req1, req2], refreshAttempts := 1 }
                else
                  { result := finalize res1, store := st, requests := [req1], refreshAttempts := 1 }
              | none =>
                { result := finalize res1, store := st, requests := [req1], refreshAttempts := 1 }
          else
            { result := finalize res1, store := clearAuthTokens st
              requests := [req1], refreshAttempts := 1 }
      else
        { result := finalize res1, store := st, requests := [req1], refreshAttempts := 0 }
    else
      { result := finalize res1, store := st, requests := [req1], refreshAttempts := 0 }

end AuthApi

namespace LibApi

/-- Header construction of the simpler `apiFetch` in `src/lib/api.ts`: the
    stored token, when truthy, is attached as a bearer credential; an absent
    token adds nothing and removes nothing. -/
def requestHeaders (optionHeaders : Headers) (bodyIsFormData : Bool) (token : Option String) :
    Headers :=
  let base := if bodyIsFormData then optionHeaders else withDefaultContentType optionHeaders
  match token with
  | some t => if t ≠ "" then hset base "Authorization" ("Bearer " ++ t) else base
  | none => base

end LibApi

namespace Wizard

/-- A step's field-scoped errors: a JS `Record<string, string | null>`,
    insertion-ordered. -/
abbrev FieldErrors := List (String × Option String)

/-- Property read `fields[key]`: `none` when the key is absent,
    `some v` when present (with `v = none` for a null entry). -/
def rget : FieldErrors → String → Option (Option String)
  | [], _ => none
  | (k, v) :: rest, key => if k = key then some v else rget rest key

/-- Property assignment `fields[key] = val`: replace in place or append. -/
def rset : FieldErrors → String → Option String → FieldErrors
  | [], key, val => [(key, val)]
  | (k, v) :: rest, key, val =>
      if k = key then (k, val) :: rest else (k, v) :: rset rest key val

/-- The `StepErrorState` interface shared by all three wizard components. -/
structure StepErrorState where
  global : Option String
  fields : FieldErrors
deriving Repr, DecidableEq

/-- `initialErrorState`. -/
def initialErrorState : StepErrorState := { global := none, fields := [] }

/-- `!s?.trim()` for an optional string field: true when the field is
    absent or whitespace-only. -/
def optBlank : Option String → Bool
  | none => true
  | some s => (jsTrim s) = ""

/-- The error key for row `i`, field `f` of a repeated sub-form. -/
def locKey (i : Nat) (f : String) : String := toString i ++ "." ++ f

/-- Decimal digits to a natural number. -/
def digitsToNat (l : List Char) : Nat :=
  l.foldl (fun acc c => acc * 10 + (c.toNat - 48)) 0

/-- JS `Number(string)` restricted to the decimal literals this UI can
    produce: optional surrounding whitespace, optional sign, integer digits,
    optional fractional digits.  `none` models `NaN`.  The empty (or
    whitespace-only) string converts to 0.  Exponent, hex and Infinity
    forms are not modelled: no code path of this frontend produces them. -/
def jsNumber (s : String) : Option ℚ :=
  let t := (jsTrim s)
  if t = "" then some 0
  else
    let signAndRest : ℚ × List Char :=
      match t.toList with
      | '-' :: cs => (-1, cs)
      | '+' :: cs => (1, cs)
      | cs => (1, cs)
    let sign := signAndRest.1
    let rest := signAndRest.2
    let intPart := rest.takeWhile Char.isDigit
    let rest2 := rest.drop intPart.length
    match rest2 with
    | [] => if intPart = [] then none else some (sign * (digitsToNat intPart : ℚ))
    | '.' :: fracCs =>
      let fracPart := fracCs.takeWhile Char.isDigit
      if fracCs.drop fracPart.length ≠ [] then none
      else if intPart = [] ∧ fracPart = [] then none
      else some (sign *
        ((digitsToNat intPart : ℚ) + (digitsToNat fracPart : ℚ) / (10 : ℚ) ^ fracPart.length))
    | _ => none

/-- The email test `/^[^\s@]+@[^\s@]+\.[^\s@]+$/`: a non-empty local part
    free of whitespace and `@`, one `@`, and a domain part free of
    whitespace and `@` that contains a dot with at least one character on
    each side.  (`\s` is modelled by `Char.isWhitespace`; the exotic
    Unicode space classes never occur in these inputs.) -/
def emailShape (s : String) : Bool :=
  match splitOnChar '@' s.data with
  | [l, r] =>
    !l.isEmpty && l.all (fun c => !c.isWhitespace) &&
    !r.isEmpty && r.all (fun c => !c.isWhitespace) &&
    ((r.drop 1).dropLast.contains '.')
  | _ => false

/-- The `LocationPayload` interface of `@/lib/api`, shared by all three
    wizard components (`created_at`/`updated_at` are never touched by the
    wizard). -/
structure LocationPayload where
  id : Option String := none
  client_id : Option String := none
  name : String := ""
  description : Option String := none
  phone : Option String := none
  address : Option String := none
  city : Option String := none
  state : Option String := none
  country : Option String := none
  postal_code : Option String := none
  latitude : Option ℚ := none
  longitude : Option ℚ := none
deriving Repr, DecidableEq

/-- `keyof LocationPayload`, as used by `handleLocationChange`. -/
inductive LocField where
  | id | client_id | name | description | phone | address | city | state
  | country | postal_code | latitude | longitude
deriving Repr, DecidableEq

/-- The string name of a `LocationPayload` key (the error-key suffix). -/
def LocField.key : LocField → String
  | .id => "id"
  | .client_id => "client_id"
  | .name => "name"
  | .description => "description"
  | .phone => "phone"
  | .address => "address"
  | .city => "city"
  | .state => "state"
  | .country => "country"
  | .postal_code => "postal_code"
  | .latitude => "latitude"
  | .longitude => "longitude"

/-- The `FacilityPayload` interface of `@/lib/api` (3-step wizard Step 3).
    The opaque `metadata` record is omitted: no wizard code path writes or
    reads it. -/
structure FacilityPayload where
  id : Option String := none
  location_id : String := ""
  name : String := ""
  type : String := ""
  status : String := "active"
  capacity : Option ℚ := none
deriving Repr, DecidableEq

/-- The `FacilityPayload` keys reachable from `handleFacilityChange`. -/
inductive FacField where
  | id | location_id | name | type | status | capacity
deriving Repr, DecidableEq

/-- The string name of a `FacilityPayload` key. -/
def FacField.key : FacField → String
  | .id => "id"
  | .location_id => "location_id"
  | .name => "name"
  | .type => "type"
  | .status => "status"
  | .capacity => "capacity"

/-- The Step 1 form state.  This is the edit-capable wizard's field set; the
    plain 2-step and 3-step wizards use subsets of these fields and their
    functions read only fields they declare, so one superset type is used
    for all three. -/
structure BusinessForm where
  companyName : String := ""
  legalName : String := ""
  contactName : String := ""
  email : String := ""
  phone : String := ""
  address : String := ""
  city : String := ""
  state : String := ""
  country : String := ""
  postalCode : String := ""
  taxId : String := ""
  registrationNumber : String := ""
  description : String := ""
  logoUrl : String := ""
  coverImageUrl : String := ""
  latitude : String := ""
  longitude : String := ""
  adminPassword : String := ""
deriving Repr, DecidableEq

/-- `keyof businessForm`, as used by `handleBusinessChange`. -/
inductive BusinessField where
  | companyName | legalName | contactName | email | phone | address | city
  | state | country | postalCode | taxId | registrationNumber | description
  | logoUrl | coverImageUrl | latitude | longitude | adminPassword
deriving Repr, DecidableEq

/-- The string name of a business-form key (the error key). -/
def BusinessField.key : BusinessField → String
  | .companyName => "companyName"
  | .legalName => "legalName"
  | .contactName => "contactName"
  | .email => "email"
  | .phone => "phone"
  | .address => "address"
  | .city => "city"
  | .state => "state"
  | .country => "country"
  | .postalCode => "postalCode"
  | .taxId => "taxId"
  | .registrationNumber => "registrationNumber"
  | .description => "description"
  | .logoUrl => "logoUrl"
  | .coverImageUrl => "coverImageUrl"
  | .latitude => "latitude"
  | .longitude => "longitude"
  | .adminPassword => "adminPassword"

/-- `{ ...prev, [field]: value }` on the business form. -/
def setBusinessField (f : BusinessForm) (field : BusinessField) (value : String) :
    BusinessForm :=
  match field with
  | .companyName => { f with companyName := value }
  | .legalName => { f with legalName := value }
  | .contactName => { f with contactName := value }
  | .email => { f with email := value }
  | .phone => { f with phone := value }
  | .address => { f with address := value }
  | .city => { f with city := value }
  | .state => { f with state := value }
  | .country => { f with country := value }
  | .postalCode => { f with postalCode := value }
  | .taxId => { f with taxId := value }
  | .registrationNumber => { f with registrationNumber := value }
  | .description => { f with description := value }
  | .logoUrl => { f with logoUrl := value }
  | .coverImageUrl => { f with coverImageUrl := value }
  | .latitude => { f with latitude := value }
  | .longitude => { f with longitude := value }
  | .adminPassword => { f with adminPassword := value }

/-- The outcome of one awaited backend call: resolve or reject with an
    `Error` carrying a message. -/
inductive ApiCall (α : Type) where
  | success (val : α)
  | failure (message : String)
deriving Repr, DecidableEq

/-- The `createLocationApi` outcome for one location: the resolved
    location's `id` and `name` (the only fields the 3-step wizard reads),
    or a rejection. -/
abbrev CreateResult := ApiCall (String × String)

/-- The outcome of the `k`-th `createLocationApi` call in a submission
    environment; calls beyond the listed ones succeed. -/
def callResult (env : List CreateResult) (k : Nat) : CreateResult :=
  env.getD k (.success ("", ""))

/-- The fields of the `createClientWithUserApi` response that the wizard
    inspects (`result?.user?.id`, `result?.client?.id`, `result?.client_id`,
    `result?.id`). -/
structure CreateClientResult where
  userId : Option String := none
  clientObjectId : Option String := none
  client_id : Option String := none
  id : Option String := none
deriving Repr, DecidableEq

/-- `result?.user?.id || result?.client?.id || result?.client_id || result?.id`,
    `none` when every candidate is falsy. -/
def extractCreatedClientId (r : CreateClientResult) : Option String :=
  if strTruthy r.userId then r.userId
  else if strTruthy r.clientObjectId then r.clientObjectId
  else if strTruthy r.client_id then r.client_id
  else if strTruthy r.id then r.id
  else none

/-- The component state touched by a Step 1 submission. -/
structure Step1Out where
  clientId : Option String
  currentStep : Nat
  step1Errors : StepErrorState
deriving Repr, DecidableEq

/-- The component state touched by a 2-step wizard's Step 2 submission,
    plus the list of `createLocationApi` payloads issued. -/
structure Step2Out where
  calls : List LocationPayload
  step2Errors : StepErrorState
  currentStep : Nat
  /-- `router.push("/dashboard")` was reached -/
  navigated : Bool
deriving Repr, DecidableEq

/-- The component state touched by the 3-step wizard's Step 2 submission. -/
structure Step2ThreeOut where
  calls : List LocationPayload
  createdLocations : List (String × String)
  locationChoices : List (String × String)
  facilities : List FacilityPayload
  step2Errors : StepErrorState
  currentStep : Nat
deriving Repr, DecidableEq

/-- `prev.filter((_, i) => i !== index)`, tracking the running index. -/
def filterOutIndexAux (index i : Nat) : List LocationPayload → List LocationPayload
  | [] => []
  | loc :: rest =>
      if i ≠ index then loc :: filterOutIndexAux index (i + 1) rest
      else filterOutIndexAux index (i + 1) rest

/-- `prev.filter((_, i) => i !== index)`. -/
def filterOutIndex (index : Nat) (locs : List LocationPayload) : List LocationPayload :=
  filterOutIndexAux index 0 locs

end Wizard

namespace EditWizard

open Wizard

/-- The numeric-field conversion of the edit-capable wizard's
    `handleLocationChange`: empty input and NaN become `undefined`, and an
    out-of-range value for the given axis also becomes `undefined`
    ("invalid, but let validation catch it"). -/
def locInputNumber (isLat : Bool) (value : String) : Option ℚ :=
  if value = "" then none
  else
    match jsNumber value with
    | none => none
    | some num =>
      if isLat ∧ (num < -90 ∨ num > 90) then none
      else if ¬ isLat ∧ (num < -180 ∨ num > 180) then none
      else some num

/-- `{ ...loc, [field]: converted value }` for the edit-capable wizard. -/
def applyLocationField (loc : LocationPayload) (field : LocField) (value : String) :
    LocationPayload :=
  match field with
  | .latitude => { loc with latitude := locInputNumber true value }
  | .longitude => { loc with longitude := locInputNumber false value }
  | .id => { loc with id := some value }
  | .client_id => { loc with client_id := some value }
  | .name => { loc with name := value }
  | .description => { loc with description := some value }
  | .phone => { loc with phone := some value }
  | .address => { loc with address := some value }
  | .city => { loc with city := some value }
  | .state => { loc with state := some value }
  | .country => { loc with country := some value }
  | .postal_code => { loc with postal_code := some value }

/-- `handleBusinessChange(field, value)`: updates the form field and the
    Step 1 error state. -/
def handleBusinessChange (form : BusinessForm) (errs : StepErrorState)
    (field : BusinessField) (value : String) : BusinessForm × StepErrorState :=
  (setBusinessField form field value,
   { global := none, fields := rset errs.fields field.key none })

/-- `handleLocationChange(index, field, value)` of the edit-capable wizard. -/
def handleLocationChange (locs : List LocationPayload) (errs : StepErrorState)
    (index : Nat) (field : LocField) (value : String) :
    List LocationPayload × StepErrorState :=
  (locs.mapIdx (fun i loc => if i = index then applyLocationField loc field value else loc),
   { global := none, fields := rset errs.fields (locKey index field.key) none })

/-- `removeLocation(index)` of the edit-capable wizard: guarded so that a
    single remaining row is never removed. -/
def removeLocation (locs : List LocationPayload) (index : Nat) : List LocationPayload :=
  if locs.length > 1 then filterOutIndex index locs else locs

/-- The latitude check of the edit-capable wizard's `validateStep1`:
    only performed when the latitude input is truthy and non-blank; NaN or
    an out-of-range value records the error. -/
def latChunk (f : BusinessForm) : FieldErrors :=
  if f.latitude ≠ "" ∧ (jsTrim f.latitude) ≠ "" then
    match jsNumber f.latitude with
    | none => [("latitude", some "Latitude must be between -90 and 90")]
    | some lat =>
      if lat < -90 ∨ lat > 90 then [("latitude", some "Latitude must be between -90 and 90")]
      else []
  else []

/-- The longitude check of the edit-capable wizard's `validateStep1`. -/
def lngChunk (f : BusinessForm) : FieldErrors :=
  if f.longitude ≠ "" ∧ (jsTrim f.longitude) ≠ "" then
    match jsNumber f.longitude with
    | none => [("longitude", some "Longitude must be between -180 and 180")]
    | some lng =>
      if lng < -180 ∨ lng > 180 then [("longitude", some "Longitude must be between -180 and 180")]
      else []
  else []

/-- The field errors accumulated by the edit-capable wizard's
    `validateStep1`, in assignment order (all keys are distinct, so the
    record built by the source's successive assignments is exactly this
    concatenation). -/
def step1Fields (isEditing : Bool) (f : BusinessForm) : FieldErrors :=
  (if (jsTrim f.companyName) = "" then [("companyName", some "Company name is required")] else []) ++
  (if (jsTrim f.contactName) = "" then [("contactName", some "Contact person is required")] else []) ++
  (if (jsTrim f.email) = "" then [("email", some "Email is required")]
   else if !emailShape f.email then [("email", some "Please enter a valid email address")]
   else []) ++
  (if (jsTrim f.phone) = "" then [("phone", some "Phone is required")] else []) ++
  (if (jsTrim f.city) = "" then [("city", some "City is required")] else []) ++
  (if (jsTrim f.country) = "" then [("country", some "Country is required")] else []) ++
  latChunk f ++
  lngChunk f ++
  (if isEditing = false then
     (if (jsTrim f.adminPassword) = "" then [("adminPassword", some "Admin password is required")]
      else if (jsTrim f.adminPassword).length < 6 then
        [("adminPassword", some "Password must be at least 6 characters")]
      else [])
   else [])

/-- `validateStep1()` of the edit-capable wizard: the resulting Step 1
    error state and the returned boolean. -/
def validateStep1 (isEditing : Bool) (f : BusinessForm) : StepErrorState × Bool :=
  let fields := step1Fields isEditing f
  if fields ≠ [] then
    ({ global := some "Please fill in all required fields.", fields := fields }, false)
  else (initialErrorState, true)

/-- The field errors one location contributes in the edit-capable wizard's
    `validateStep2` (name/city/country presence and coordinate ranges). -/
def locationErrors (i : Nat) (loc : LocationPayload) : FieldErrors :=
  (if (jsTrim loc.name) = "" then [(locKey i "name", some "Location name is required")] else []) ++
  (if optBlank loc.city then [(locKey i "city", some "City is required")] else []) ++
  (if optBlank loc.country then [(locKey i "country", some "Country is required")] else []) ++
  (match loc.latitude with
   | some lat =>
     if lat < -90 ∨ lat > 90 then [(locKey i "latitude", some "Latitude must be between -90 and 90")]
     else []
   | none => []) ++
  (match loc.longitude with
   | some lng =>
     if lng < -180 ∨ lng > 180 then
       [(locKey i "longitude", some "Longitude must be between -180 and 180")]
     else []
   | none => [])

/-- `locations.forEach(...)` of the edit-capable wizard's `validateStep2`,
    starting at row index `i`. -/
def locationErrorsFrom (i : Nat) : List LocationPayload → FieldErrors
  | [] => []
  | loc :: rest => locationErrors i loc ++ locationErrorsFrom (i + 1) rest

/-- `validateStep2()` of the edit-capable wizard. -/
def validateStep2 (locs : List LocationPayload) : StepErrorState × Bool :=
  let g : Option String :=
    if locs.length = 0 then some "Add at least one location to continue." else none
  let fields := locationErrorsFrom 0 locs
  if fields ≠ [] ∨ g ≠ none then
    ({ global := match g with
         | some m => some m
         | none => some "Please complete the required fields for locations."
       fields := fields }, false)
  else (initialErrorState, true)

/-- The `for (const loc of locations)` creation loop of the edit-capable
    wizard's `handleSubmitStep2`: locations carrying a truthy `id` are
    skipped; each other location is sent as `{ ...loc, client_id }`.
    Returns the issued payloads and the message of the first rejection. -/
def createLoop (cid : String) (env : List CreateResult) (k : Nat) :
    List LocationPayload → List LocationPayload × Option String
  | [] => ([], none)
  | loc :: rest =>
    if strTruthy loc.id then createLoop cid env k rest
    else
      let payload := { loc with client_id := some cid }
      match callResult env k with
      | .failure msg => ([payload], some (jsOrStr msg "Failed to save locations"))
      | .success _ =>
        let out := createLoop cid env (k + 1) rest
        (payload :: out.1, out.2)

/-- `handleSubmitStep2()` of the edit-capable wizard. -/
def handleSubmitStep2 (clientId : Option String) (locs : List LocationPayload)
    (prevStep : Nat) (env : List CreateResult) : Step2Out :=
  if ¬ strTruthy clientId then
    { calls := []
      step2Errors :=
        { global := some "Business has not been created yet. Please complete Step 1 first."
          fields := [] }
      currentStep := 1
      navigated := false }
  else
    let v := validateStep2 locs
    if ¬ v.2 then
      { calls := [], step2Errors := v.1, currentStep := prevStep, navigated := false }
    else
      let run := createLoop (clientId.getD "") env 0 locs
      match run.2 with
      | some msg =>
        { calls := run.1, step2Errors := { global := some msg, fields := [] }
          currentStep := prevStep, navigated := false }
      | none =>
        { calls := run.1, step2Errors := v.1, currentStep := prevStep, navigated := true }

/-- `handleSubmitStep1()` of the edit-capable wizard, with the backend
    outcomes passed in (`updateEnv` for `updateClientApi`, `createEnv` for
    `createClientWithUserApi`; the request payloads built from the form are
    not modelled, only the control flow on the responses). -/
def handleSubmitStep1 (isEditing : Bool) (clientIdFromQuery : Option String)
    (prevClientId : Option String) (prevStep : Nat) (f : BusinessForm)
    (updateEnv : ApiCall Unit) (createEnv : ApiCall CreateClientResult) : Step1Out :=
  let v := validateStep1 isEditing f
  if ¬ v.2 then { clientId := prevClientId, currentStep := prevStep, step1Errors := v.1 }
  else
    if isEditing ∧ strTruthy clientIdFromQuery then
      match updateEnv with
      | .success _ =>
        { clientId := clientIdFromQuery, currentStep := 2, step1Errors := v.1 }
      | .failure msg =>
        { clientId := prevClientId, currentStep := prevStep
          step1Errors := { global := some (jsOrStr msg "Failed to update business"), fields := [] } }
    else
      match createEnv with
      | .failure msg =>
        { clientId := prevClientId, currentStep := prevStep
          step1Errors :=
            { global := some (jsOrStr msg
                (if isEditing then "Failed to update business" else "Failed to create business"))
              fields := [] } }
      | .success r =>
        match extractCreatedClientId r with
        | some cid => { clientId := some cid, currentStep := 2, step1Errors := v.1 }
        | none =>
          { clientId := prevClientId, currentStep := prevStep
            step1Errors := { global := some "Client ID missing from response", fields := [] } }

end EditWizard

namespace PlainWizard

open Wizard

/-- `removeLocation(index)` of the plain 2-step wizard (same guard as the
    edit-capable wizard). -/
def removeLocation (locs : List LocationPayload) (index : Nat) : List LocationPayload :=
  if locs.length > 1 then filterOutIndex index locs else locs

/-- The field errors accumulated by the plain 2-step wizard's
    `validateStep1` (no coordinate fields, no admin password in this form). -/
def step1Fields (f : BusinessForm) : FieldErrors :=
  (if (jsTrim f.companyName) = "" then [("companyName", some "Company name is required")] else []) ++
  (if (jsTrim f.contactName) = "" then [("contactName", some "Contact person is required")] else []) ++
  (if (jsTrim f.email) = "" then [("email", some "Email is required")]
   else if !emailShape f.email then [("email", some "Please enter a valid email address")]
   else []) ++
  (if (jsTrim f.phone) = "" then [("phone", some "Phone is required")] else []) ++
  (if (jsTrim f.city) = "" then [("city", some "City is required")] else []) ++
  (if (jsTrim f.country) = "" then [("country", some "Country is required")] else [])

/-- `validateStep1()` of the plain 2-step wizard. -/
def validateStep1 (f : BusinessForm) : StepErrorState × Bool :=
  let fields := step1Fields f
  if fields ≠ [] then
    ({ global := some "Please fill in all required fields.", fields := fields }, false)
  else (initialErrorState, true)

/-- The field errors one location contributes in the plain 2-step wizard's
    `validateStep2`: only name/city/country presence, no coordinate checks. -/
def locationErrors (i : Nat) (loc : LocationPayload) : FieldErrors :=
  (if (jsTrim loc.name) = "" then [(locKey i "name", some "Location name is required")] else []) ++
  (if optBlank loc.city then [(locKey i "city", some "City is required")] else []) ++
  (if optBlank loc.country then [(locKey i "country", some "Country is required")] else [])

/-- The `locations.forEach(...)` of the plain 2-step wizard's `validateStep2`. -/
def locationErrorsFrom (i : Nat) : List LocationPayload → FieldErrors
  | [] => []
  | loc :: rest => locationErrors i loc ++ locationErrorsFrom (i + 1) rest

/-- `validateStep2()` of the plain 2-step wizard. -/
def validateStep2 (locs : List LocationPayload) : StepErrorState × Bool :=
  let g : Option String :=
    if locs.length = 0 then some "Add at least one location to continue." else none
  let fields := locationErrorsFrom 0 locs
  if fields ≠ [] ∨ g ≠ none then
    ({ global := match g with
         | some m => some m
         | none => some "Please complete the required fields for locations."
       fields := fields }, false)
  else (initialErrorState, true)

/-- The creation loop of the plain 2-step wizard's `handleSubmitStep2`:
    every location is sent as `{ ...loc, client_id }` (no skipping). -/
def createLoop (cid : String) (env : List CreateResult) (k : Nat) :
    List LocationPayload → List LocationPayload × Option String
  | [] => ([], none)
  | loc :: rest =>
    let payload := { loc with client_id := some cid }
    match callResult env k with
    | .failure msg => ([payload], some (jsOrStr msg "Failed to create locations"))
    | .success _ =>
      let out := createLoop cid env (k + 1) rest
      (payload :: out.1, out.2)

/-- `handleSubmitStep2()` of the plain 2-step wizard. -/
def handleSubmitStep2 (clientId : Option String) (locs : List LocationPayload)
    (prevStep : Nat) (env : List CreateResult) : Step2Out :=
  if ¬ strTruthy clientId then
    { calls := []
      step2Errors :=
        { global := some "Business has not been created yet. Please complete Step 1 first."
          fields := [] }
      currentStep := 1
      navigated := false }
  else
    let v := validateStep2 locs
    if ¬ v.2 then
      { calls := [], step2Errors := v.1, currentStep := prevStep, navigated := false }
    else
      let run := createLoop (clientId.getD "") env 0 locs
      match run.2 with
      | some msg =>
        { calls := run.1, step2Errors := { global := some msg, fields := [] }
          currentStep := prevStep, navigated := false }
      | none =>
        { calls := run.1, step2Errors := v.1, currentStep := prevStep, navigated := true }

end PlainWizard

namespace ThreeStepWizard

open Wizard

/-- `handleBusinessChange(field, value)` of the 3-step wizard (identical
    body to the edit-capable wizard's, over its subset of form fields). -/
def handleBusinessChange (form : BusinessForm) (errs : StepErrorState)
    (field : BusinessField) (value : String) : BusinessForm × StepErrorState :=
  (setBusinessField form field value,
   { global := none, fields := rset errs.fields field.key none })

/-- The numeric conversion of the 3-step (and plain) wizard's
    `handleLocationChange`: empty input becomes `undefined`, anything else
    goes through `Number(...)` (NaN conflated with `undefined`, see the
    header comment). -/
def locInputNumber (value : String) : Option ℚ :=
  if value = "" then none else jsNumber value

/-- `{ ...loc, [field]: converted value }` for the 3-step wizard. -/
def applyLocationField (loc : LocationPayload) (field : LocField) (value : String) :
    LocationPayload :=
  match field with
  | .latitude => { loc with latitude := locInputNumber value }
  | .longitude => { loc with longitude := locInputNumber value }
  | .id => { loc with id := some value }
  | .client_id => { loc with client_id := some value }
  | .name => { loc with name := value }
  | .description => { loc with description := some value }
  | .phone => { loc with phone := some value }
  | .address => { loc with address := some value }
  | .city => { loc with city := some value }
  | .state => { loc with state := some value }
  | .country => { loc with country := some value }
  | .postal_code => { loc with postal_code := some value }

/-- `handleLocationChange(index, field, value)` of the 3-step wizard. -/
def handleLocationChange (locs : List LocationPayload) (errs : StepErrorState)
    (index : Nat) (field : LocField) (value : String) :
    List LocationPayload × StepErrorState :=
  (locs.mapIdx (fun i loc => if i = index then applyLocationField loc field value else loc),
   { global := none, fields := rset errs.fields (locKey index field.key) none })

/-- `{ ...fac, [field]: converted value }` for `handleFacilityChange`. -/
def applyFacilityField (fac : FacilityPayload) (field : FacField) (value : String) :
    FacilityPayload :=
  match field with
  | .capacity => { fac with capacity := if value = "" then none else jsNumber value }
  | .id => { fac with id := some value }
  | .location_id => { fac with location_id := value }
  | .name => { fac with name := value }
  | .type => { fac with type := value }
  | .status => { fac with status := value }

/-- `handleFacilityChange(index, field, value)` of the 3-step wizard. -/
def handleFacilityChange (facs : List FacilityPayload) (errs : StepErrorState)
    (index : Nat) (field : FacField) (value : String) :
    List FacilityPayload × StepErrorState :=
  (facs.mapIdx (fun i fac => if i = index then applyFacilityField fac field value else fac),
   { global := none, fields := rset errs.fields (locKey index field.key) none })

/-- `removeLocation(index)` of the 3-step wizard: an unconditional filter,
    with no minimum-length guard. -/
def removeLocation (locs : List LocationPayload) (index : Nat) : List LocationPayload :=
  filterOutIndex index locs

/-- The field errors accumulated by the 3-step wizard's `validateStep1`:
    note that the email is only checked for non-emptiness (no shape test),
    and the admin password is always validated (no edit mode). -/
def step1Fields (f : BusinessForm) : FieldErrors :=
  (if (jsTrim f.companyName) = "" then [("companyName", some "Company name is required")] else []) ++
  (if (jsTrim f.contactName) = "" then [("contactName", some "Contact person is required")] else []) ++
  (if (jsTrim f.email) = "" then [("email", some "Email is required")] else []) ++
  (if (jsTrim f.phone) = "" then [("phone", some "Phone is required")] else []) ++
  (if (jsTrim f.city) = "" then [("city", some "City is required")] else []) ++
  (if (jsTrim f.country) = "" then [("country", some "Country is required")] else []) ++
  (if (jsTrim f.adminPassword) = "" then [("adminPassword", some "Admin password is required")]
   else if (jsTrim f.adminPassword).length < 6 then
     [("adminPassword", some "Password must be at least 6 characters")]
   else [])

/-- `validateStep1()` of the 3-step wizard. -/
def validateStep1 (f : BusinessForm) : StepErrorState × Bool :=
  let fields := step1Fields f
  if fields ≠ [] then
    ({ global := some "Please fill in all required fields.", fields := fields }, false)
  else (initialErrorState, true)

/-- The field errors one location contributes in the 3-step wizard's
    `validateStep2`: only name/city/country presence, no coordinate checks. -/
def locationErrors (i : Nat) (loc : LocationPayload) : FieldErrors :=
  (if (jsTrim loc.name) = "" then [(locKey i "name", some "Location name is required")] else []) ++
  (if optBlank loc.city then [(locKey i "city", some "City is required")] else []) ++
  (if optBlank loc.country then [(locKey i "country", some "Country is required")] else [])

/-- The `locations.forEach(...)` of the 3-step wizard's `validateStep2`. -/
def locationErrorsFrom (i : Nat) : List LocationPayload → FieldErrors
  | [] => []
  | loc :: rest => locationErrors i loc ++ locationErrorsFrom (i + 1) rest

/-- `validateStep2()` of the 3-step wizard. -/
def validateStep2 (locs : List LocationPayload) : StepErrorState × Bool :=
  let g : Option String :=
    if locs.length = 0 then some "Add at least one location to continue." else none
  let fields := locationErrorsFrom 0 locs
  if fields ≠ [] ∨ g ≠ none then
    ({ global := match g with
         | some m => some m
         | none => some "Please complete the required fields for locations."
       fields := fields }, false)
  else (initialErrorState, true)

/-- The creation loop of the 3-step wizard's `handleSubmitStep2`: every
    location is sent as `{ ...loc, client_id }`, and each resolved
    location's `(id, name)` is collected. -/
def createLoop (cid : String) (env : List CreateResult) (k : Nat) :
    List LocationPayload → List LocationPayload × List (String × String) × Option String
  | [] => ([], [], none)
  | loc :: rest =>
    let payload := { loc with client_id := some cid }
    match callResult env k with
    | .failure msg => ([payload], [], some (jsOrStr msg "Failed to create locations"))
    | .success r =>
      let out := createLoop cid env (k + 1) rest
      (payload :: out.1, r :: out.2.1, out.2.2)

/-- `handleSubmitStep2()` of the 3-step wizard: on success it records the
    created locations as Step 3 choices, pre-fills facilities lacking a
    location with the first created one, and advances to Step 3. -/
def handleSubmitStep2 (clientId : Option String) (locs : List LocationPayload)
    (facilities : List FacilityPayload) (locationChoices : List (String × String))
    (prevStep : Nat) (env : List CreateResult) : Step2ThreeOut :=
  if ¬ strTruthy clientId then
    { calls := [], createdLocations := []
      locationChoices := locationChoices, facilities := facilities
      step2Errors :=
        { global := some "Client has not been created yet. Please complete Step 1 first."
          fields := [] }
      currentStep := 1 }
  else
    let v := validateStep2 locs
    if ¬ v.2 then
      { calls := [], createdLocations := []
        locationChoices := locationChoices, facilities := facilities
        step2Errors := v.1, currentStep := prevStep }
    else
      let run := createLoop (clientId.getD "") env 0 locs
      match run.2.2 with
      | some msg =>
        { calls := run.1, createdLocations := run.2.1
          locationChoices := locationChoices, facilities := facilities
          step2Errors := { global := some msg, fields := [] }, currentStep := prevStep }
      | none =>
        let created := run.2.1
        { calls := run.1, createdLocations := created
          locationChoices := if created ≠ [] then created else locationChoices
          facilities :=
            if created ≠ [] then
              facilities.map (fun fac =>
                if fac.location_id = "" then
                  { fac with location_id := (created.headD ("", "")).1 }
                else fac)
            else facilities
          step2Errors := v.1, currentStep := 3 }

end ThreeStepWizard

/-- The valid create-mode Step 1 input named by the specification. -/
def acmeForm : Wizard.BusinessForm :=
  { companyName := "Acme", contactName := "Jo", email := "jo@acme.com"
    phone := "+1", city := "NYC", country := "US", adminPassword := "secret1" }

/-- The same input with the malformed email named by the specification. -/
def acmeBadEmailForm : Wizard.BusinessForm := { acmeForm with email := "not-an-email" }

/-- The in-range location named by the specification
    (latitude 45.5 = 91/2, longitude -122.6 = -613/5, required fields
    present; written with `mkRat` so the values evaluate in the kernel). -/
def goodLoc : Wizard.LocationPayload :=
  { name := "Main", city := some "Portland", country := some "US"
    latitude := some (mkRat 91 2), longitude := some (mkRat (-613) 5) }

/-- A location with the out-of-range latitude 95 named by the specification
    (required fields present, so only the range could reject it). -/
def lat95Loc : Wizard.LocationPayload :=
  { name := "Main", city := some "Portland", country := some "US", latitude := some 95 }

/-- A valid location carrying a pre-existing identifier (edit mode). -/
def locWithId : Wizard.LocationPayload :=
  { id := some "L1", name := "Old", city := some "Lahore", country := some "PK" }

/-- A valid location without an identifier (newly added row). -/
def locNoId : Wizard.LocationPayload :=
  { name := "New", city := some "Lahore", country := some "PK" }

/-! ## Theorems

General lemmas about the record embeddings, followed by one theorem per
specification claim (with witnesses and counterexamples where applicable).
-/

theorem hget_hset_self (h : Headers) (k v : String) : hget (hset h k v) k = some v := by
  induction h with
  | nil => simp [hset, hget]
  | cons p rest ih =>
    obtain ⟨k1, v1⟩ := p
    by_cases hk : k1 = k
    · simp [hset, hget, hk]
    · simp [hset, hget, hk, ih]

theorem hget_hset_ne (h : Headers) (k k2 v : String) (hne : k ≠ k2) :
    hget (hset h k v) k2 = hget h k2 := by
  induction h with
  | nil => simp [hset, hget, hne]
  | cons p rest ih =>
    obtain ⟨k1, v1⟩ := p
    by_cases hk : k1 = k
    · subst hk
      simp [hset, hget, hne]
    · simp [hset, hget, hk, ih]

theorem hget_hdel_self (h : Headers) (k : String) : hget (hdel h k) k = none := by
  induction h with
  | nil => simp [hdel, hget]
  | cons p rest ih =>
    obtain ⟨k1, v1⟩ := p
    by_cases hk : k1 = k
    · simp [hdel, hget, hk, ih]
    · simp [hdel, hget, hk, ih]

theorem rget_rset_self (fs : Wizard.FieldErrors) (k : String) (v : Option String) :
    Wizard.rget (Wizard.rset fs k v) k = some v := by
  induction fs with
  | nil => simp [Wizard.rset, Wizard.rget]
  | cons p rest ih =>
    obtain ⟨k1, v1⟩ := p
    by_cases hk : k1 = k
    · simp [Wizard.rset, Wizard.rget, hk]
    · simp [Wizard.rset, Wizard.rget, hk, ih]

theorem rget_rset_ne (fs : Wizard.FieldErrors) (k k2 : String) (v : Option String)
    (hne : k2 ≠ k) : Wizard.rget (Wizard.rset fs k v) k2 = Wizard.rget fs k2 := by
  have hne2 : k ≠ k2 := Ne.symm hne
  induction fs with
  | nil => simp [Wizard.rset, Wizard.rget, hne2]
  | cons p rest ih =>
    obtain ⟨k1, v1⟩ := p
    by_cases hk : k1 = k
    · subst hk
      simp [Wizard.rset, Wizard.rget, hne2]
    · simp [Wizard.rset, Wizard.rget, hk, ih]

theorem rget_skip_chunk (chunk rest : Wizard.FieldErrors) (k : String)
    (h : Wizard.rget chunk k = none) :
    Wizard.rget (chunk ++ rest) k = Wizard.rget rest k := by
  induction chunk with
  | nil => simp
  | cons p cs ih =>
    obtain ⟨k1, v1⟩ := p
    by_cases hk : k1 = k
    · simp [Wizard.rget, hk] at h
    · simp only [List.cons_append, Wizard.rget, if_neg hk] at h ⊢
      exact ih h

theorem rget_some_ne_nil {fs : Wizard.FieldErrors} {k : String} {v : Option String}
    (h : Wizard.rget fs k = some v) : fs ≠ [] := by
  intro he
  subst he
  simp [Wizard.rget] at h

theorem rget_ite_entry_ne {c : Prop} [Decidable c] (k1 k : String) {v : Option String}
    (h : ¬ k1 = k) : Wizard.rget (if c then [(k1, v)] else []) k = none := by
  split <;> simp [Wizard.rget, h]

theorem rget_ite2_entry_ne {c1 c2 : Prop} [Decidable c1] [Decidable c2]
    (k1 k : String) {v1 v2 : Option String} (h : ¬ k1 = k) :
    Wizard.rget (if c1 then [(k1, v1)] else if c2 then [(k1, v2)] else []) k = none := by
  split
  · simp [Wizard.rget, h]
  · split <;> simp [Wizard.rget, h]

theorem rget_latChunk_ne (f : Wizard.BusinessForm) (k : String) (h : ¬ "latitude" = k) :
    Wizard.rget (EditWizard.latChunk f) k = none := by
  unfold EditWizard.latChunk
  repeat' split
  all_goals simp [Wizard.rget, h]

theorem rget_lngChunk_ne (f : Wizard.BusinessForm) (k : String) (h : ¬ "longitude" = k) :
    Wizard.rget (EditWizard.lngChunk f) k = none := by
  unfold EditWizard.lngChunk
  repeat' split
  all_goals simp [Wizard.rget, h]

theorem validateStep1_false_of_rget (isEditing : Bool) (f : Wizard.BusinessForm)
    (key : String) (msg : String)
    (h : Wizard.rget (EditWizard.step1Fields isEditing f) key = some (some msg)) :
    (EditWizard.validateStep1 isEditing f).2 = false ∧
    Wizard.rget (EditWizard.validateStep1 isEditing f).1.fields key = some (some msg) := by
  have hne : EditWizard.step1Fields isEditing f ≠ [] := rget_some_ne_nil h
  unfold EditWizard.validateStep1
  rw [if_pos hne]
  exact ⟨rfl, h⟩

/-- C1 (amended): for any path other than the login and refresh endpoints,
    a 401 first response with a stored (truthy) refresh token and a
    successful refresh carrying a new access token leads to exactly one
    retried request whose Authorization header is the new bearer token;
    if the retried request resolves, the caller observes exactly the
    outcome of that final response, but if the retried fetch rejects, the
    rejection is caught, both stored tokens are cleared, and the error
    derived from the original 401 response is thrown to the caller. -/
theorem apiFetch_refresh_retry_behaviour :
    (∀ (path : String) (h0 : Headers) (bfd : Bool) (st : AuthApi.Storage)
        (r1 rr r2 : AuthApi.Response) (data : AuthApi.JsonBody) (t : String),
      path ≠ "/auth/login" → path ≠ "/auth/refresh" → r1.status = 401 →
      strTruthy st.refresh = true → rr.ok = true → rr.body = some data →
      data.access_token = some t → t ≠ "" →
      (AuthApi.apiFetch path h0 bfd st ⟨some r1, some rr, some r2⟩).requests.length = 2 ∧
      ((AuthApi.apiFetch path h0 bfd st ⟨some r1, some rr, some r2⟩).requests.getLast?.map
          (fun rq => hget rq.headers "Authorization")) = some (some ("Bearer " ++ t)) ∧
      (AuthApi.apiFetch path h0 bfd st ⟨some r1, some rr, some r2⟩).result =
        AuthApi.finalize r2 ∧
      (AuthApi.apiFetch path h0 bfd st ⟨some r1, some rr, some r2⟩).refreshAttempts = 1) ∧
    (∀ (path : String) (h0 : Headers) (bfd : Bool) (st : AuthApi.Storage)
        (r1 rr : AuthApi.Response) (data : AuthApi.JsonBody) (t : String),
      path ≠ "/auth/login" → path ≠ "/auth/refresh" → r1.status = 401 →
      strTruthy st.refresh = true → rr.ok = true → rr.body = some data →
      data.access_token = some t → t ≠ "" →
      (AuthApi.apiFetch path h0 bfd st ⟨some r1, some rr, none⟩).requests.length = 2 ∧
      ((AuthApi.apiFetch path h0 bfd st ⟨some r1, some rr, none⟩).requests.getLast?.map
          (fun rq => hget rq.headers "Authorization")) = some (some ("Bearer " ++ t)) ∧
      (AuthApi.apiFetch path h0 bfd st ⟨some r1, some rr, none⟩).result =
        .apiError (AuthApi.errorMessage r1) ∧
      (AuthApi.apiFetch path h0 bfd st ⟨some r1, some rr, none⟩).store =
        { access := none, refresh := none }) := by
  constructor
  · intro path h0 bfd st r1 rr r2 data t hp1 hp2 h401 hrt hok hbody ht htne
    have hcond : r1.status = 401 ∧ path ≠ "/auth/login" ∧ path ≠ "/auth/refresh" :=
      ⟨h401, hp1, hp2⟩
    simp only [AuthApi.apiFetch, AuthApi.getRefreshToken, AuthApi.getAccessToken,
      AuthApi.setAuthTokens, hrt, hok, hbody, ht, htne, if_pos hcond, if_true, ite_true]
    simp [AuthApi.attachAuthHeader, AuthApi.getAccessToken, htne, hget_hset_self,
      List.getLast?]
  · intro path h0 bfd st r1 rr data t hp1 hp2 h401 hrt hok hbody ht htne
    have hcond : r1.status = 401 ∧ path ≠ "/auth/login" ∧ path ≠ "/auth/refresh" :=
      ⟨h401, hp1, hp2⟩
    have hnotok : ¬ r1.ok = true := by
      simp [AuthApi.Response.ok, h401]
    simp only [AuthApi.apiFetch, AuthApi.getRefreshToken, AuthApi.getAccessToken,
      AuthApi.setAuthTokens, hrt, hok, hbody, ht, htne, if_pos hcond, if_true, ite_true]
    simp [AuthApi.attachAuthHeader, AuthApi.getAccessToken, AuthApi.clearAuthTokens,
      AuthApi.finalize, htne, hnotok, hget_hset_self, List.getLast?]

/-- C1 counterexample: a concrete eligible call whose refresh succeeds with
    a new access token but whose retried fetch rejects; the caller then
    observes the error derived from the intermediate 401 response, which
    the claim says is never observed. -/
theorem apiFetch_rejected_retry_surfaces_401 :
    (AuthApi.apiFetch "/users" [] false { access := some "old", refresh := some "r" }
      ⟨some { status := 401, body := some { message := some "Unauthorized" } },
       some { status := 200, body := some { access_token := some "new" } },
       none⟩).result = .apiError "Unauthorized" ∧
    AuthApi.errorMessage { status := 401, body := some { message := some "Unauthorized" } } =
      "Unauthorized" ∧
    (AuthApi.apiFetch "/users" [] false { access := some "old", refresh := some "r" }
      ⟨some { status := 401, body := some { message := some "Unauthorized" } },
       some { status := 200, body := some { access_token := some "new" } },
       none⟩).store = { access := none, refresh := none } := by
  refine ⟨rfl, rfl, rfl⟩

/-- C2: for a refresh-eligible call (401 on a non-auth path with a stored
    refresh token), a failing refresh — a non-ok refresh response or a
    rejected refresh fetch — clears both stored tokens, issues no retry,
    and surfaces the error derived from the original 401 response. -/
theorem apiFetch_refresh_failure_clears_tokens
    (path : String) (h0 : Headers) (bfd : Bool) (st : AuthApi.Storage)
    (r1 : AuthApi.Response) (refreshRes secondRes : Option AuthApi.Response)
    (hp1 : path ≠ "/auth/login") (hp2 : path ≠ "/auth/refresh")
    (h401 : r1.status = 401)
    (hrt : strTruthy st.refresh = true)
    (hfail : refreshRes = none ∨ ∃ rr, refreshRes = some rr ∧ rr.ok = false) :
    (AuthApi.apiFetch path h0 bfd st ⟨some r1, refreshRes, secondRes⟩).store =
      { access := none, refresh := none } ∧
    (AuthApi.apiFetch path h0 bfd st ⟨some r1, refreshRes, secondRes⟩).requests.length = 1 ∧
    (AuthApi.apiFetch path h0 bfd st ⟨some r1, refreshRes, secondRes⟩).result =
      .apiError (AuthApi.errorMessage r1) := by
  have hcond : r1.status = 401 ∧ path ≠ "/auth/login" ∧ path ≠ "/auth/refresh" :=
    ⟨h401, hp1, hp2⟩
  have hnotok : ¬ r1.ok = true := by
    simp [AuthApi.Response.ok, h401]
  rcases hfail with hnone | ⟨rr, hsome, hnok⟩
  · subst hnone
    simp only [AuthApi.apiFetch, AuthApi.getRefreshToken, hrt, if_pos hcond, if_true, ite_true]
    simp [AuthApi.clearAuthTokens, AuthApi.finalize, hnotok]
  · subst hsome
    simp only [AuthApi.apiFetch, AuthApi.getRefreshToken, hrt, hnok, if_pos hcond, if_true,
      ite_true]
    simp [AuthApi.clearAuthTokens, AuthApi.finalize, hnotok]

/-- C10: a successful refresh response whose JSON body lacks the
    `access_token` field leaves the stored tokens untouched, issues no
    retry, and surfaces the error derived from the original 401 response. -/
theorem apiFetch_refresh_missing_token_no_update
    (path : String) (h0 : Headers) (bfd : Bool) (st : AuthApi.Storage)
    (r1 rr : AuthApi.Response) (data : AuthApi.JsonBody) (secondRes : Option AuthApi.Response)
    (hp1 : path ≠ "/auth/login") (hp2 : path ≠ "/auth/refresh")
    (h401 : r1.status = 401)
    (hrt : strTruthy st.refresh = true)
    (hok : rr.ok = true) (hbody : rr.body = some data)
    (ht : data.access_token = none) :
    (AuthApi.apiFetch path h0 bfd st ⟨some r1, some rr, secondRes⟩).store = st ∧
    (AuthApi.apiFetch path h0 bfd st ⟨some r1, some rr, secondRes⟩).requests.length = 1 ∧
    (AuthApi.apiFetch path h0 bfd st ⟨some r1, some rr, secondRes⟩).result =
      .apiError (AuthApi.errorMessage r1) := by
  have hcond : r1.status = 401 ∧ path ≠ "/auth/login" ∧ path ≠ "/auth/refresh" :=
    ⟨h401, hp1, hp2⟩
  have hnotok : ¬ r1.ok = true := by
    simp [AuthApi.Response.ok, h401]
  simp only [AuthApi.apiFetch, AuthApi.getRefreshToken, hrt, hok, hbody, ht,
    if_pos hcond, if_true, ite_true]
  simp [AuthApi.finalize, hnotok]

/-- C1 witness: a concrete 401-then-refresh-then-retry run for the
    resolving retry, and a concrete rejected-retry run, both through the
    amended theorem. -/
theorem apiFetch_refresh_retry_behaviour_witness :
    ((AuthApi.apiFetch "/users" [] false { access := some "old", refresh := some "r" }
      ⟨some { status := 401 },
       some { status := 200, body := some { access_token := some "new", refresh_token := some "r2" } },
       some { status := 200, body := some {} }⟩).requests.length = 2 ∧
    ((AuthApi.apiFetch "/users" [] false { access := some "old", refresh := some "r" }
      ⟨some { status := 401 },
       some { status := 200, body := some { access_token := some "new", refresh_token := some "r2" } },
       some { status := 200, body := some {} }⟩).requests.getLast?.map
        (fun rq => hget rq.headers "Authorization")) = some (some ("Bearer " ++ "new")) ∧
    (AuthApi.apiFetch "/users" [] false { access := some "old", refresh := some "r" }
      ⟨some { status := 401 },
       some { status := 200, body := some { access_token := some "new", refresh_token := some "r2" } },
       some { status := 200, body := some {} }⟩).result =
      AuthApi.finalize { status := 200, body := some {} } ∧
    (AuthApi.apiFetch "/users" [] false { access := some "old", refresh := some "r" }
      ⟨some { status := 401 },
       some { status := 200, body := some { access_token := some "new", refresh_token := some "r2" } },
       some { status := 200, body := some {} }⟩).refreshAttempts = 1) ∧
    ((AuthApi.apiFetch "/users" [] false { access := some "old", refresh := some "r" }
      ⟨some { status := 401, body := some { message := some "expired" } },
       some { status := 200, body := some { access_token := some "new" } },
       none⟩).requests.length = 2 ∧
    ((AuthApi.apiFetch "/users" [] false { access := some "old", refresh := some "r" }
      ⟨some { status := 401, body := some { message := some "expired" } },
       some { status := 200, body := some { access_token := some "new" } },
       none⟩).requests.getLast?.map
        (fun rq => hget rq.headers "Authorization")) = some (some ("Bearer " ++ "new")) ∧
    (AuthApi.apiFetch "/users" [] false { access := some "old", refresh := some "r" }
      ⟨some { status := 401, body := some { message := some "expired" } },
       some { status := 200, body := some { access_token := some "new" } },
       none⟩).result =
      .apiError (AuthApi.errorMessage { status := 401, body := some { message := some "expired" } }) ∧
    (AuthApi.apiFetch "/users" [] false { access := some "old", refresh := some "r" }
      ⟨some { status := 401, body := some { message := some "expired" } },
       some { status := 200, body := some { access_token := some "new" } },
       none⟩).store = { access := none, refresh := none }) :=
  ⟨apiFetch_refresh_retry_behaviour.1 "/users" [] false
    { access := some "old", refresh := some "r" }
    { status := 401 }
    { status := 200, body := some { access_token := some "new", refresh_token := some "r2" } }
    { status := 200, body := some {} }
    { access_token := some "new", refresh_token := some "r2" } "new"
    (by decide) (by decide) rfl rfl (by decide) rfl rfl (by decide),
   apiFetch_refresh_retry_behaviour.2 "/users" [] false
    { access := some "old", refresh := some "r" }
    { status := 401, body := some { message := some "expired" } }
    { status := 200, body := some { access_token := some "new" } }
    { access_token := some "new" } "new"
    (by decide) (by decide) rfl rfl (by decide) rfl rfl (by decide)⟩

/-- C2 witness: a concrete refresh rejection (non-ok refresh response). -/
theorem apiFetch_refresh_failure_clears_tokens_witness :
    (AuthApi.apiFetch "/users" [] false { access := some "old", refresh := some "r" }
      ⟨some { status := 401, body := some { message := some "Unauthorized" } },
       some { status := 403 }, none⟩).store = { access := none, refresh := none } ∧
    (AuthApi.apiFetch "/users" [] false { access := some "old", refresh := some "r" }
      ⟨some { status := 401, body := some { message := some "Unauthorized" } },
       some { status := 403 }, none⟩).requests.length = 1 ∧
    (AuthApi.apiFetch "/users" [] false { access := some "old", refresh := some "r" }
      ⟨some { status := 401, body := some { message := some "Unauthorized" } },
       some { status := 403 }, none⟩).result =
      .apiError (AuthApi.errorMessage { status := 401, body := some { message := some "Unauthorized" } }) :=
  apiFetch_refresh_failure_clears_tokens "/users" [] false
    { access := some "old", refresh := some "r" }
    { status := 401, body := some { message := some "Unauthorized" } }
    (some { status := 403 }) none
    (by decide) (by decide) rfl rfl
    (Or.inr ⟨{ status := 403 }, rfl, by decide⟩)

/-- C10 witness: a concrete ok refresh response with no access_token field. -/
theorem apiFetch_refresh_missing_token_no_update_witness :
    (AuthApi.apiFetch "/users" [] false { access := some "old", refresh := some "r" }
      ⟨some { status := 401, body := some { message := some "nope" } },
       some { status := 200, body := some {} }, none⟩).store =
      { access := some "old", refresh := some "r" } ∧
    (AuthApi.apiFetch "/users" [] false { access := some "old", refresh := some "r" }
      ⟨some { status := 401, body := some { message := some "nope" } },
       some { status := 200, body := some {} }, none⟩).requests.length = 1 ∧
    (AuthApi.apiFetch "/users" [] false { access := some "old", refresh := some "r" }
      ⟨some { status := 401, body := some { message := some "nope" } },
       some { status := 200, body := some {} }, none⟩).result =
      .apiError (AuthApi.errorMessage { status := 401, body := some { message := some "nope" } }) :=
  apiFetch_refresh_missing_token_no_update "/users" [] false
    { access := some "old", refresh := some "r" }
    { status := 401, body := some { message := some "nope" } }
    { status := 200, body := some {} } {} none
    (by decide) (by decide) rfl rfl (by decide) rfl rfl

theorem apiFetch_first_request (path : String) (h0 : Headers) (bfd : Bool)
    (st : AuthApi.Storage) (env : AuthApi.Env) :
    (AuthApi.apiFetch path h0 bfd st env).requests.head? =
      some { path := path
             headers := AuthApi.attachAuthHeader st
               (if bfd then h0 else withDefaultContentType h0) } := by
  unfold AuthApi.apiFetch
  obtain ⟨f, rres, s⟩ := env
  cases f with
  | none => simp
  | some r1 =>
    simp only
    repeat' split
    all_goals simp

theorem attachAuthHeader_falsy (st : AuthApi.Storage) (h : Headers)
    (hfalse : strTruthy st.access = false) :
    hget (AuthApi.attachAuthHeader st h) "Authorization" = none := by
  unfold AuthApi.attachAuthHeader AuthApi.getAccessToken
  cases hst : st.access with
  | none => simp [hget_hdel_self]
  | some t =>
    have ht : t = "" := by
      rw [hst] at hfalse
      simpa [strTruthy] using hfalse
    simp [ht, hget_hdel_self]

/-- C8 (amended): in the refresh-capable client, when no truthy access
    token is stored the first issued request carries no Authorization
    header, even if the caller supplied one; in the `src/lib/api.ts`
    client an absent token merely adds nothing, so a caller-supplied
    Authorization header passes through unchanged. -/
theorem authorization_header_absent_token :
    (∀ (path : String) (h0 : Headers) (bfd : Bool) (st : AuthApi.Storage)
        (env : AuthApi.Env), strTruthy st.access = false →
      ((AuthApi.apiFetch path h0 bfd st env).requests.head?.map
          (fun rq => hget rq.headers "Authorization")) = some none) ∧
    (∀ (h0 : Headers) (bfd : Bool),
      hget (LibApi.requestHeaders h0 bfd none) "Authorization" = hget h0 "Authorization") := by
  constructor
  · intro path h0 bfd st env hfalse
    rw [apiFetch_first_request]
    simp [attachAuthHeader_falsy st _ hfalse]
  · intro h0 bfd
    unfold LibApi.requestHeaders
    cases bfd with
    | true => simp
    | false =>
      simp only [Bool.false_eq_true, if_false, ite_false]
      exact hget_hset_ne _ _ _ _ (by decide)

/-- C8 counterexample: the `src/lib/api.ts` client, called with no stored
    token and a caller-supplied Authorization header, issues the request
    with that header still present — the claim says it must carry none. -/
theorem libApi_keeps_caller_authorization :
    hget (LibApi.requestHeaders [("Authorization", "Bearer stale")] false none)
      "Authorization" = some "Bearer stale" ∧
    hget (LibApi.requestHeaders [("Authorization", "Bearer stale")] false none)
      "Authorization" ≠ none := by
  constructor
  · rfl
  · decide

/-- C8 witness for the amended theorem, at concrete inputs. -/
theorem authorization_header_absent_token_witness :
    ((AuthApi.apiFetch "/users" [("Authorization", "Bearer stale")] false
        { access := none, refresh := none }
        ⟨some { status := 200, body := some {} }, none, none⟩).requests.head?.map
        (fun rq => hget rq.headers "Authorization")) = some none ∧
    hget (LibApi.requestHeaders [("X-Trace", "y")] true none) "Authorization" =
      hget [("X-Trace", "y")] "Authorization" :=
  ⟨authorization_header_absent_token.1 "/users" [("Authorization", "Bearer stale")] false
      { access := none, refresh := none }
      ⟨some { status := 200, body := some {} }, none, none⟩ (by decide),
   authorization_header_absent_token.2 [("X-Trace", "y")] true⟩

/-- C9 (amended): every wizard field-change operation clears the changed
    field's stored error entry AND resets the step-global error to null;
    all other field error entries are unchanged.  Stated for
    `handleBusinessChange` and `handleLocationChange` of the edit-capable
    wizard and `handleBusinessChange`, `handleLocationChange` and
    `handleFacilityChange` of the 3-step wizard. -/
theorem field_change_error_frame :
    (∀ (form : Wizard.BusinessForm) (errs : Wizard.StepErrorState)
        (field : Wizard.BusinessField) (value k : String), k ≠ field.key →
      (EditWizard.handleBusinessChange form errs field value).2.global = none ∧
      Wizard.rget (EditWizard.handleBusinessChange form errs field value).2.fields
        field.key = some none ∧
      Wizard.rget (EditWizard.handleBusinessChange form errs field value).2.fields k =
        Wizard.rget errs.fields k) ∧
    (∀ (locs : List Wizard.LocationPayload) (errs : Wizard.StepErrorState) (index : Nat)
        (field : Wizard.LocField) (value k : String), k ≠ Wizard.locKey index field.key →
      (EditWizard.handleLocationChange locs errs index field value).2.global = none ∧
      Wizard.rget (EditWizard.handleLocationChange locs errs index field value).2.fields
        (Wizard.locKey index field.key) = some none ∧
      Wizard.rget (EditWizard.handleLocationChange locs errs index field value).2.fields k =
        Wizard.rget errs.fields k) ∧
    (∀ (form : Wizard.BusinessForm) (errs : Wizard.StepErrorState)
        (field : Wizard.BusinessField) (value k : String), k ≠ field.key →
      (ThreeStepWizard.handleBusinessChange form errs field value).2.global = none ∧
      Wizard.rget (ThreeStepWizard.handleBusinessChange form errs field value).2.fields
        field.key = some none ∧
      Wizard.rget (ThreeStepWizard.handleBusinessChange form errs field value).2.fields k =
        Wizard.rget errs.fields k) ∧
    (∀ (locs : List Wizard.LocationPayload) (errs : Wizard.StepErrorState) (index : Nat)
        (field : Wizard.LocField) (value k : String), k ≠ Wizard.locKey index field.key →
      (ThreeStepWizard.handleLocationChange locs errs index field value).2.global = none ∧
      Wizard.rget (ThreeStepWizard.handleLocationChange locs errs index field value).2.fields
        (Wizard.locKey index field.key) = some none ∧
      Wizard.rget (ThreeStepWizard.handleLocationChange locs errs index field value).2.fields k =
        Wizard.rget errs.fields k) ∧
    (∀ (facs : List Wizard.FacilityPayload) (errs : Wizard.StepErrorState) (index : Nat)
        (field : Wizard.FacField) (value k : String), k ≠ Wizard.locKey index field.key →
      (ThreeStepWizard.handleFacilityChange facs errs index field value).2.global = none ∧
      Wizard.rget (ThreeStepWizard.handleFacilityChange facs errs index field value).2.fields
        (Wizard.locKey index field.key) = some none ∧
      Wizard.rget (ThreeStepWizard.handleFacilityChange facs errs index field value).2.fields k =
        Wizard.rget errs.fields k) := by
  refine ⟨?_, ?_, ?_, ?_, ?_⟩
  · intro form errs field value k hk
    exact ⟨rfl, rget_rset_self _ _ _, rget_rset_ne _ _ _ _ hk⟩
  · intro locs errs index field value k hk
    exact ⟨rfl, rget_rset_self _ _ _, rget_rset_ne _ _ _ _ hk⟩
  · intro form errs field value k hk
    exact ⟨rfl, rget_rset_self _ _ _, rget_rset_ne _ _ _ _ hk⟩
  · intro locs errs index field value k hk
    exact ⟨rfl, rget_rset_self _ _ _, rget_rset_ne _ _ _ _ hk⟩
  · intro facs errs index field value k hk
    exact ⟨rfl, rget_rset_self _ _ _, rget_rset_ne _ _ _ _ hk⟩

/-- C9 counterexample: entering a field value while a step-global error is
    displayed resets that global error to null — it does not remain
    unchanged as the claim states. -/
theorem handleBusinessChange_clears_global_error :
    ((EditWizard.handleBusinessChange {}
        { global := some "Please fill in all required fields."
          fields := [("companyName", some "Company name is required")] }
        .companyName "Acme").2).global = none ∧
    ((EditWizard.handleBusinessChange {}
        { global := some "Please fill in all required fields."
          fields := [("companyName", some "Company name is required")] }
        .companyName "Acme").2).global ≠ some "Please fill in all required fields." := by
  constructor
  · rfl
  · decide

/-- C9 witness: the amended frame property at concrete inputs. -/
theorem field_change_error_frame_witness :
    ((EditWizard.handleBusinessChange {}
        { global := none, fields := [("companyName", some "x"), ("email", some "y")] }
        .companyName "Acme").2.global = none ∧
      Wizard.rget (EditWizard.handleBusinessChange {}
        { global := none, fields := [("companyName", some "x"), ("email", some "y")] }
        .companyName "Acme").2.fields Wizard.BusinessField.companyName.key = some none ∧
      Wizard.rget (EditWizard.handleBusinessChange {}
        { global := none, fields := [("companyName", some "x"), ("email", some "y")] }
        .companyName "Acme").2.fields "email" =
        Wizard.rget [("companyName", some "x"), ("email", some "y")] "email") ∧
    ((EditWizard.handleLocationChange [] { global := none, fields := [] } 0
        .city "Lahore").2.global = none ∧
      Wizard.rget (EditWizard.handleLocationChange [] { global := none, fields := [] } 0
        .city "Lahore").2.fields (Wizard.locKey 0 Wizard.LocField.city.key) = some none ∧
      Wizard.rget (EditWizard.handleLocationChange [] { global := none, fields := [] } 0
        .city "Lahore").2.fields "0.name" = Wizard.rget [] "0.name") ∧
    ((ThreeStepWizard.handleBusinessChange {} { global := none, fields := [] }
        .email "a@b.c").2.global = none ∧
      Wizard.rget (ThreeStepWizard.handleBusinessChange {} { global := none, fields := [] }
        .email "a@b.c").2.fields Wizard.BusinessField.email.key = some none ∧
      Wizard.rget (ThreeStepWizard.handleBusinessChange {} { global := none, fields := [] }
        .email "a@b.c").2.fields "phone" = Wizard.rget [] "phone") ∧
    ((ThreeStepWizard.handleLocationChange [] { global := none, fields := [] } 1
        .name "B").2.global = none ∧
      Wizard.rget (ThreeStepWizard.handleLocationChange [] { global := none, fields := [] } 1
        .name "B").2.fields (Wizard.locKey 1 Wizard.LocField.name.key) = some none ∧
      Wizard.rget (ThreeStepWizard.handleLocationChange [] { global := none, fields := [] } 1
        .name "B").2.fields "1.city" = Wizard.rget [] "1.city") ∧
    ((ThreeStepWizard.handleFacilityChange [] { global := none, fields := [] } 0
        .capacity "4").2.global = none ∧
      Wizard.rget (ThreeStepWizard.handleFacilityChange [] { global := none, fields := [] } 0
        .capacity "4").2.fields (Wizard.locKey 0 Wizard.FacField.capacity.key) = some none ∧
      Wizard.rget (ThreeStepWizard.handleFacilityChange [] { global := none, fields := [] } 0
        .capacity "4").2.fields "0.name" = Wizard.rget [] "0.name") :=
  ⟨field_change_error_frame.1 {} _ .companyName "Acme" "email" (by decide),
   field_change_error_frame.2.1 [] _ 0 .city "Lahore" "0.name" (by decide),
   field_change_error_frame.2.2.1 {} _ .email "a@b.c" "phone" (by decide),
   field_change_error_frame.2.2.2.1 [] _ 1 .name "B" "1.city" (by decide),
   field_change_error_frame.2.2.2.2 [] _ 0 .capacity "4" "0.name" (by decide)⟩

/-- C6 (amended): in the two 2-step wizards `removeLocation` is a no-op on
    a one-entry list (the minimum of one row is retained); in the 3-step
    wizard `removeLocation` is an unconditional filter and removes the
    last remaining row (the minimum is only enforced by the UI hiding the
    remove control). -/
theorem removeLocation_minimum_one :
    (∀ (locs : List Wizard.LocationPayload) (index : Nat), locs.length = 1 →
       EditWizard.removeLocation locs index = locs) ∧
    (∀ (locs : List Wizard.LocationPayload) (index : Nat), locs.length = 1 →
       PlainWizard.removeLocation locs index = locs) ∧
    (∀ loc : Wizard.LocationPayload, ThreeStepWizard.removeLocation [loc] 0 = []) := by
  refine ⟨?_, ?_, ?_⟩
  · intro locs index h
    simp [EditWizard.removeLocation, h]
  · intro locs index h
    simp [PlainWizard.removeLocation, h]
  · intro loc
    rfl

/-- C6 counterexample: the 3-step wizard's `removeLocation`, invoked on a
    state whose locations list has exactly one entry, empties the list
    rather than leaving it unchanged. -/
theorem threeStep_removeLocation_removes_last :
    ThreeStepWizard.removeLocation [locNoId] 0 = [] ∧
    ThreeStepWizard.removeLocation [locNoId] 0 ≠ [locNoId] := by
  constructor
  · rfl
  · decide

/-- C6 witness: the guarded no-op at a concrete one-entry list. -/
theorem removeLocation_minimum_one_witness :
    EditWizard.removeLocation [locWithId] 0 = [locWithId] ∧
    PlainWizard.removeLocation [locWithId] 0 = [locWithId] :=
  ⟨removeLocation_minimum_one.1 [locWithId] 0 (by decide),
   removeLocation_minimum_one.2.1 [locWithId] 0 (by decide)⟩

/-- C4 (amended): the edit-capable wizard's Step 1 gate blocks (with the
    corresponding field error) an empty company name, a non-empty email
    failing the shape test, and, in create mode, a non-empty password
    shorter than six characters, and it accepts the Acme input; the 3-step
    wizard's gate checks the email only for non-emptiness (it accepts the
    Acme input with email "not-an-email"), and the plain 2-step wizard's
    gate ignores the admin password entirely. -/
theorem validateStep1_gate_behaviour :
    (∀ f : Wizard.BusinessForm, (jsTrim f.companyName) = "" →
      (EditWizard.validateStep1 false f).2 = false ∧
      Wizard.rget (EditWizard.validateStep1 false f).1.fields "companyName" =
        some (some "Company name is required")) ∧
    (∀ f : Wizard.BusinessForm, ¬ (jsTrim f.email) = "" → Wizard.emailShape f.email = false →
      (EditWizard.validateStep1 false f).2 = false ∧
      Wizard.rget (EditWizard.validateStep1 false f).1.fields "email" =
        some (some "Please enter a valid email address")) ∧
    (∀ f : Wizard.BusinessForm, ¬ (jsTrim f.adminPassword) = "" →
        (jsTrim f.adminPassword).length < 6 →
      (EditWizard.validateStep1 false f).2 = false ∧
      Wizard.rget (EditWizard.validateStep1 false f).1.fields "adminPassword" =
        some (some "Password must be at least 6 characters")) ∧
    EditWizard.validateStep1 false acmeForm = (Wizard.initialErrorState, true) ∧
    (ThreeStepWizard.validateStep1 acmeBadEmailForm).2 = true ∧
    (∀ (f : Wizard.BusinessForm) (pw : String),
      PlainWizard.validateStep1 { f with adminPassword := pw } =
        PlainWizard.validateStep1 f) := by
  refine ⟨?_, ?_, ?_, ?_, ?_, ?_⟩
  · intro f h
    apply validateStep1_false_of_rget
    unfold EditWizard.step1Fields
    rw [if_pos h]
    simp [Wizard.rget, List.append_assoc]
  · intro f h1 h2
    apply validateStep1_false_of_rget
    unfold EditWizard.step1Fields
    simp only [List.append_assoc]
    rw [rget_skip_chunk _ _ _ (rget_ite_entry_ne "companyName" "email" (by decide)),
        rget_skip_chunk _ _ _ (rget_ite_entry_ne "contactName" "email" (by decide))]
    rw [if_neg h1]
    have h3 : (!Wizard.emailShape f.email) = true := by simp [h2]
    rw [if_pos h3]
    simp [Wizard.rget]
  · intro f h1 h2
    apply validateStep1_false_of_rget
    unfold EditWizard.step1Fields
    simp only [List.append_assoc]
    rw [rget_skip_chunk _ _ _ (rget_ite_entry_ne "companyName" "adminPassword" (by decide)),
        rget_skip_chunk _ _ _ (rget_ite_entry_ne "contactName" "adminPassword" (by decide)),
        rget_skip_chunk _ _ _ (rget_ite2_entry_ne "email" "adminPassword" (by decide)),
        rget_skip_chunk _ _ _ (rget_ite_entry_ne "phone" "adminPassword" (by decide)),
        rget_skip_chunk _ _ _ (rget_ite_entry_ne "city" "adminPassword" (by decide)),
        rget_skip_chunk _ _ _ (rget_ite_entry_ne "country" "adminPassword" (by decide)),
        rget_skip_chunk _ _ _ (rget_latChunk_ne f "adminPassword" (by decide)),
        rget_skip_chunk _ _ _ (rget_lngChunk_ne f "adminPassword" (by decide))]
    rw [if_pos trivial, if_neg h1, if_pos h2]
    simp [Wizard.rget]
  · decide
  · decide
  · intro f pw
    rfl

/-- C4 counterexample: the 3-step wizard's Step 1 validation gate accepts
    the Acme input with email "not-an-email", although that email fails
    the basic shape test the claim requires to block advancement. -/
theorem threeStep_validateStep1_accepts_invalid_email :
    Wizard.emailShape "not-an-email" = false ∧
    acmeBadEmailForm.email = "not-an-email" ∧
    (ThreeStepWizard.validateStep1 acmeBadEmailForm).2 = true := by
  refine ⟨by decide, rfl, by decide⟩

/-- C4 witness: the amended gate behaviour at concrete inputs. -/
theorem validateStep1_gate_behaviour_witness :
    ((EditWizard.validateStep1 false { acmeForm with companyName := "" }).2 = false ∧
      Wizard.rget (EditWizard.validateStep1 false
        { acmeForm with companyName := "" }).1.fields "companyName" =
        some (some "Company name is required")) ∧
    ((EditWizard.validateStep1 false acmeBadEmailForm).2 = false ∧
      Wizard.rget (EditWizard.validateStep1 false acmeBadEmailForm).1.fields "email" =
        some (some "Please enter a valid email address")) ∧
    ((EditWizard.validateStep1 false { acmeForm with adminPassword := "12345" }).2 = false ∧
      Wizard.rget (EditWizard.validateStep1 false
        { acmeForm with adminPassword := "12345" }).1.fields "adminPassword" =
        some (some "Password must be at least 6 characters")) :=
  ⟨validateStep1_gate_behaviour.1 { acmeForm with companyName := "" } (by decide),
   validateStep1_gate_behaviour.2.1 acmeBadEmailForm (by decide) (by decide),
   validateStep1_gate_behaviour.2.2.1 { acmeForm with adminPassword := "12345" }
     (by decide) (by decide)⟩

theorem locationErrorsFrom_ne_nil (i j : Nat) (locs : List Wizard.LocationPayload)
    (loc : Wizard.LocationPayload) (hj : locs.get? j = some loc)
    (hne : EditWizard.locationErrors (i + j) loc ≠ []) :
    EditWizard.locationErrorsFrom i locs ≠ [] := by
  induction locs generalizing i j with
  | nil => simp at hj
  | cons head rest ih =>
    cases j with
    | zero =>
      have hh : head = loc := by simpa using hj
      subst hh
      intro hEq
      simp only [EditWizard.locationErrorsFrom] at hEq
      exact hne (by simpa using (List.append_eq_nil.mp hEq).1)
    | succ j2 =>
      have hj2 : rest.get? j2 = some loc := by simpa using hj
      have hne2 : EditWizard.locationErrors (i + 1 + j2) loc ≠ [] := by
        have harith : i + 1 + j2 = i + (j2 + 1) := by omega
        rw [harith]
        exact hne
      intro hEq
      simp only [EditWizard.locationErrorsFrom] at hEq
      exact ih (i + 1) j2 hj2 hne2 (List.append_eq_nil.mp hEq).2

theorem locationErrors_lat_ne_nil (i : Nat) (loc : Wizard.LocationPayload) (q : ℚ)
    (hla : loc.latitude = some q) (hq : q < -90 ∨ q > 90) :
    EditWizard.locationErrors i loc ≠ [] := by
  have hmem : (Wizard.locKey i "latitude", some "Latitude must be between -90 and 90") ∈
      EditWizard.locationErrors i loc := by
    unfold EditWizard.locationErrors
    simp [hla, hq, List.mem_append]
  exact List.ne_nil_of_mem hmem

theorem locationErrors_lng_ne_nil (i : Nat) (loc : Wizard.LocationPayload) (q : ℚ)
    (hlo : loc.longitude = some q) (hq : q < -180 ∨ q > 180) :
    EditWizard.locationErrors i loc ≠ [] := by
  have hmem : (Wizard.locKey i "longitude", some "Longitude must be between -180 and 180") ∈
      EditWizard.locationErrors i loc := by
    unfold EditWizard.locationErrors
    simp [hlo, hq, List.mem_append]
  exact List.ne_nil_of_mem hmem

theorem validateStep2_false_of_fields (locs : List Wizard.LocationPayload)
    (hne : EditWizard.locationErrorsFrom 0 locs ≠ []) :
    (EditWizard.validateStep2 locs).2 = false := by
  simp only [EditWizard.validateStep2]
  rw [if_pos (Or.inl hne)]

/-- C5 (amended): the edit-capable wizard's Step 2 gate rejects any
    location whose latitude is set and outside [-90, 90] or whose
    longitude is set and outside [-180, 180], and it accepts the location
    with latitude 45.5 and longitude -122.6 whose name, city and country
    are non-empty; the plain 2-step and 3-step wizards' Step 2 gates do
    not inspect the coordinates at all. -/
theorem validateStep2_coordinate_ranges :
    (∀ (locs : List Wizard.LocationPayload) (j : Nat) (loc : Wizard.LocationPayload) (q : ℚ),
      locs.get? j = some loc → loc.latitude = some q → q < -90 ∨ q > 90 →
      (EditWizard.validateStep2 locs).2 = false) ∧
    (∀ (locs : List Wizard.LocationPayload) (j : Nat) (loc : Wizard.LocationPayload) (q : ℚ),
      locs.get? j = some loc → loc.longitude = some q → q < -180 ∨ q > 180 →
      (EditWizard.validateStep2 locs).2 = false) ∧
    EditWizard.validateStep2 [goodLoc] = (Wizard.initialErrorState, true) ∧
    (∀ (i : Nat) (loc : Wizard.LocationPayload) (la lo : Option ℚ),
      PlainWizard.locationErrors i { loc with latitude := la, longitude := lo } =
        PlainWizard.locationErrors i loc) ∧
    (∀ (i : Nat) (loc : Wizard.LocationPayload) (la lo : Option ℚ),
      ThreeStepWizard.locationErrors i { loc with latitude := la, longitude := lo } =
        ThreeStepWizard.locationErrors i loc) := by
  refine ⟨?_, ?_, by decide, ?_, ?_⟩
  · intro locs j loc q hj hla hq
    exact validateStep2_false_of_fields locs
      (locationErrorsFrom_ne_nil 0 j locs loc hj (locationErrors_lat_ne_nil (0 + j) loc q hla hq))
  · intro locs j loc q hj hlo hq
    exact validateStep2_false_of_fields locs
      (locationErrorsFrom_ne_nil 0 j locs loc hj (locationErrors_lng_ne_nil (0 + j) loc q hlo hq))
  · intro i loc la lo
    rfl
  · intro i loc la lo
    rfl

/-- C5 counterexample: the plain 2-step and 3-step wizards' Step 2 gates
    both accept a location with latitude 95 (out of the range the claim
    says must be rejected). -/
theorem plain_validateStep2_accepts_latitude_95 :
    lat95Loc.latitude = some 95 ∧ ((95 : ℚ) < -90 ∨ (95 : ℚ) > 90) ∧
    (PlainWizard.validateStep2 [lat95Loc]).2 = true ∧
    (ThreeStepWizard.validateStep2 [lat95Loc]).2 = true := by
  refine ⟨rfl, by decide, by decide, by decide⟩

/-- C5 witness: the edit-capable gate rejecting concrete out-of-range
    coordinates via the amended theorem. -/
theorem validateStep2_coordinate_ranges_witness :
    (EditWizard.validateStep2 [lat95Loc]).2 = false ∧
    (EditWizard.validateStep2 [{ goodLoc with longitude := some 200 }]).2 = false :=
  ⟨validateStep2_coordinate_ranges.1 [lat95Loc] 0 lat95Loc 95 rfl rfl (by decide),
   validateStep2_coordinate_ranges.2.1 [{ goodLoc with longitude := some 200 }] 0
     { goodLoc with longitude := some 200 } 200 rfl rfl (by decide)⟩

theorem editCreateLoop_client_id (cid : String) (env : List Wizard.CreateResult) (k : Nat)
    (locs : List Wizard.LocationPayload) :
    ∀ p ∈ (EditWizard.createLoop cid env k locs).1, p.client_id = some cid := by
  induction locs generalizing k with
  | nil =>
    intro p hp
    simp [EditWizard.createLoop] at hp
  | cons loc rest ih =>
    intro p hp
    unfold EditWizard.createLoop at hp
    by_cases hid : strTruthy loc.id
    · rw [if_pos hid] at hp
      exact ih k p hp
    · rw [if_neg hid] at hp
      cases hc : Wizard.callResult env k with
      | success r =>
        rw [hc] at hp
        simp at hp
        rcases hp with hp | hp
        · subst hp
          rfl
        · exact ih (k + 1) p hp
      | failure msg =>
        rw [hc] at hp
        simp at hp
        subst hp
        rfl

theorem plainCreateLoop_client_id (cid : String) (env : List Wizard.CreateResult) (k : Nat)
    (locs : List Wizard.LocationPayload) :
    ∀ p ∈ (PlainWizard.createLoop cid env k locs).1, p.client_id = some cid := by
  induction locs generalizing k with
  | nil =>
    intro p hp
    simp [PlainWizard.createLoop] at hp
  | cons loc rest ih =>
    intro p hp
    unfold PlainWizard.createLoop at hp
    cases hc : Wizard.callResult env k with
    | success r =>
      rw [hc] at hp
      simp at hp
      rcases hp with hp | hp
      · subst hp
        rfl
      · exact ih (k + 1) p hp
    | failure msg =>
      rw [hc] at hp
      simp at hp
      subst hp
      rfl

theorem threeCreateLoop_client_id (cid : String) (env : List Wizard.CreateResult) (k : Nat)
    (locs : List Wizard.LocationPayload) :
    ∀ p ∈ (ThreeStepWizard.createLoop cid env k locs).1, p.client_id = some cid := by
  induction locs generalizing k with
  | nil =>
    intro p hp
    simp [ThreeStepWizard.createLoop] at hp
  | cons loc rest ih =>
    intro p hp
    unfold ThreeStepWizard.createLoop at hp
    cases hc : Wizard.callResult env k with
    | success r =>
      rw [hc] at hp
      simp at hp
      rcases hp with hp | hp
      · subst hp
        rfl
      · exact ih (k + 1) p hp
    | failure msg =>
      rw [hc] at hp
      simp at hp
      subst hp
      rfl

/-- C3: a successful create-mode Step 1 submission with valid data sets the
    client identifier extracted from the response and advances to Step 2;
    in every wizard variant, a Step 2 submission with a truthy client
    identifier attaches it as `client_id` to every payload passed to the
    create-location call; and a Step 2 submission with no truthy client
    identifier issues no create-location call, sets the step-global error
    to an explanatory message, and returns to Step 1. -/
theorem wizard_clientId_threading :
    (∀ (clientIdFromQuery prevClientId : Option String) (prevStep : Nat)
        (f : Wizard.BusinessForm) (updateEnv : Wizard.ApiCall Unit)
        (r : Wizard.CreateClientResult) (cid : String),
      (EditWizard.validateStep1 false f).2 = true →
      Wizard.extractCreatedClientId r = some cid →
      (EditWizard.handleSubmitStep1 false clientIdFromQuery prevClientId prevStep f
          updateEnv (.success r)).clientId = some cid ∧
      (EditWizard.handleSubmitStep1 false clientIdFromQuery prevClientId prevStep f
          updateEnv (.success r)).currentStep = 2) ∧
    (∀ (cid : String) (locs : List Wizard.LocationPayload) (prevStep : Nat)
        (env : List Wizard.CreateResult), cid ≠ "" →
      ∀ p ∈ (EditWizard.handleSubmitStep2 (some cid) locs prevStep env).calls,
        p.client_id = some cid) ∧
    (∀ (cid : String) (locs : List Wizard.LocationPayload) (prevStep : Nat)
        (env : List Wizard.CreateResult), cid ≠ "" →
      ∀ p ∈ (PlainWizard.handleSubmitStep2 (some cid) locs prevStep env).calls,
        p.client_id = some cid) ∧
    (∀ (cid : String) (locs : List Wizard.LocationPayload)
        (facs : List Wizard.FacilityPayload) (choices : List (String × String))
        (prevStep : Nat) (env : List Wizard.CreateResult), cid ≠ "" →
      ∀ p ∈ (ThreeStepWizard.handleSubmitStep2 (some cid) locs facs choices prevStep env).calls,
        p.client_id = some cid) ∧
    (∀ (clientId : Option String) (locs : List Wizard.LocationPayload) (prevStep : Nat)
        (env : List Wizard.CreateResult), strTruthy clientId = false →
      (EditWizard.handleSubmitStep2 clientId locs prevStep env).calls = [] ∧
      (EditWizard.handleSubmitStep2 clientId locs prevStep env).step2Errors.global =
        some "Business has not been created yet. Please complete Step 1 first." ∧
      (EditWizard.handleSubmitStep2 clientId locs prevStep env).currentStep = 1) ∧
    (∀ (clientId : Option String) (locs : List Wizard.LocationPayload) (prevStep : Nat)
        (env : List Wizard.CreateResult), strTruthy clientId = false →
      (PlainWizard.handleSubmitStep2 clientId locs prevStep env).calls = [] ∧
      (PlainWizard.handleSubmitStep2 clientId locs prevStep env).step2Errors.global =
        some "Business has not been created yet. Please complete Step 1 first." ∧
      (PlainWizard.handleSubmitStep2 clientId locs prevStep env).currentStep = 1) ∧
    (∀ (clientId : Option String) (locs : List Wizard.LocationPayload)
        (facs : List Wizard.FacilityPayload) (choices : List (String × String))
        (prevStep : Nat) (env : List Wizard.CreateResult), strTruthy clientId = false →
      (ThreeStepWizard.handleSubmitStep2 clientId locs facs choices prevStep env).calls = [] ∧
      (ThreeStepWizard.handleSubmitStep2 clientId locs facs choices prevStep env).step2Errors.global =
        some "Client has not been created yet. Please complete Step 1 first." ∧
      (ThreeStepWizard.handleSubmitStep2 clientId locs facs choices prevStep env).currentStep = 1) := by
  refine ⟨?_, ?_, ?_, ?_, ?_, ?_, ?_⟩
  · intro clientIdFromQuery prevClientId prevStep f updateEnv r cid hv hr
    simp [EditWizard.handleSubmitStep1, hv, hr]
  · intro cid locs prevStep env hcid p hp
    have ht : strTruthy (some cid) = true := by simp [strTruthy, hcid]
    rcases hv2 : (EditWizard.validateStep2 locs).2 with hf | htr
    · simp [EditWizard.handleSubmitStep2, ht, hv2] at hp
    · simp only [EditWizard.handleSubmitStep2, ht, hv2, Bool.not_true, Bool.false_eq_true,
        if_false, ite_false, Bool.not_false, not_false_eq_true, not_true_eq_false,
        Option.getD_some] at hp
      rcases hrun : (EditWizard.createLoop cid env 0 locs).2 with hnone | msg
      · simp [hrun] at hp
        exact editCreateLoop_client_id cid env 0 locs p hp
      · simp [hrun] at hp
        exact editCreateLoop_client_id cid env 0 locs p hp
  · intro cid locs prevStep env hcid p hp
    have ht : strTruthy (some cid) = true := by simp [strTruthy, hcid]
    rcases hv2 : (PlainWizard.validateStep2 locs).2 with hf | htr
    · simp [PlainWizard.handleSubmitStep2, ht, hv2] at hp
    · simp only [PlainWizard.handleSubmitStep2, ht, hv2, Bool.not_true, Bool.false_eq_true,
        if_false, ite_false, Bool.not_false, not_false_eq_true, not_true_eq_false,
        Option.getD_some] at hp
      rcases hrun : (PlainWizard.createLoop cid env 0 locs).2 with hnone | msg
      · simp [hrun] at hp
        exact plainCreateLoop_client_id cid env 0 locs p hp
      · simp [hrun] at hp
        exact plainCreateLoop_client_id cid env 0 locs p hp
  · intro cid locs facs choices prevStep env hcid p hp
    have ht : strTruthy (some cid) = true := by simp [strTruthy, hcid]
    rcases hv2 : (ThreeStepWizard.validateStep2 locs).2 with hf | htr
    · simp [ThreeStepWizard.handleSubmitStep2, ht, hv2] at hp
    · simp only [ThreeStepWizard.handleSubmitStep2, ht, hv2, Bool.not_true, Bool.false_eq_true,
        if_false, ite_false, Bool.not_false, not_false_eq_true, not_true_eq_false,
        Option.getD_some] at hp
      rcases hrun : (ThreeStepWizard.createLoop cid env 0 locs).2.2 with hnone | msg
      · simp [hrun] at hp
        exact threeCreateLoop_client_id cid env 0 locs p hp
      · simp [hrun] at hp
        exact threeCreateLoop_client_id cid env 0 locs p hp
  · intro clientId locs prevStep env hfalse
    refine ⟨?_, ?_, ?_⟩ <;> simp [EditWizard.handleSubmitStep2, hfalse]
  · intro clientId locs prevStep env hfalse
    refine ⟨?_, ?_, ?_⟩ <;> simp [PlainWizard.handleSubmitStep2, hfalse]
  · intro clientId locs facs choices prevStep env hfalse
    refine ⟨?_, ?_, ?_⟩ <;> simp [ThreeStepWizard.handleSubmitStep2, hfalse]

/-- C3 witness: client-identifier threading at concrete inputs, for all
    three wizard variants and both the guarded and the successful path. -/
theorem wizard_clientId_threading_witness :
    ((EditWizard.handleSubmitStep1 false none none 1 acmeForm (.success ())
        (.success { userId := some "u1" })).clientId = some "u1" ∧
      (EditWizard.handleSubmitStep1 false none none 1 acmeForm (.success ())
        (.success { userId := some "u1" })).currentStep = 2) ∧
    ({ locNoId with client_id := some "c1" } : Wizard.LocationPayload).client_id = some "c1" ∧
    ({ locNoId with client_id := some "c2" } : Wizard.LocationPayload).client_id = some "c2" ∧
    ({ locNoId with client_id := some "c3" } : Wizard.LocationPayload).client_id = some "c3" ∧
    ((EditWizard.handleSubmitStep2 none [locNoId] 2 []).calls = [] ∧
      (EditWizard.handleSubmitStep2 none [locNoId] 2 []).step2Errors.global =
        some "Business has not been created yet. Please complete Step 1 first." ∧
      (EditWizard.handleSubmitStep2 none [locNoId] 2 []).currentStep = 1) ∧
    ((PlainWizard.handleSubmitStep2 (some "") [locNoId] 2 []).calls = [] ∧
      (PlainWizard.handleSubmitStep2 (some "") [locNoId] 2 []).step2Errors.global =
        some "Business has not been created yet. Please complete Step 1 first." ∧
      (PlainWizard.handleSubmitStep2 (some "") [locNoId] 2 []).currentStep = 1) ∧
    ((ThreeStepWizard.handleSubmitStep2 none [locNoId] [] [] 2 []).calls = [] ∧
      (ThreeStepWizard.handleSubmitStep2 none [locNoId] [] [] 2 []).step2Errors.global =
        some "Client has not been created yet. Please complete Step 1 first." ∧
      (ThreeStepWizard.handleSubmitStep2 none [locNoId] [] [] 2 []).currentStep = 1) :=
  ⟨wizard_clientId_threading.1 none none 1 acmeForm (.success ())
      { userId := some "u1" } "u1" (by decide) rfl,
   wizard_clientId_threading.2.1 "c1" [locNoId] 2 [] (by decide)
      { locNoId with client_id := some "c1" } (by decide),
   wizard_clientId_threading.2.2.1 "c2" [locNoId] 2 [] (by decide)
      { locNoId with client_id := some "c2" } (by decide),
   wizard_clientId_threading.2.2.2.1 "c3" [locNoId] [] [] 2 [] (by decide)
      { locNoId with client_id := some "c3" } (by decide),
   wizard_clientId_threading.2.2.2.2.1 none [locNoId] 2 [] (by decide),
   wizard_clientId_threading.2.2.2.2.2.1 (some "") [locNoId] 2 [] (by decide),
   wizard_clientId_threading.2.2.2.2.2.2 none [locNoId] [] [] 2 [] (by decide)⟩

theorem editCreateLoop_allSuccess (cid : String) (k : Nat)
    (locs : List Wizard.LocationPayload) :
    EditWizard.createLoop cid [] k locs =
      ((locs.filter (fun l => !strTruthy l.id)).map
        (fun l => { l with client_id := some cid }), none) := by
  induction locs generalizing k with
  | nil => simp [EditWizard.createLoop]
  | cons loc rest ih =>
    unfold EditWizard.createLoop
    by_cases hid : strTruthy loc.id
    · rw [if_pos hid]
      simp [List.filter_cons, hid, ih k]
    · rw [if_neg hid]
      have hc : Wizard.callResult [] k = .success ("", "") := rfl
      rw [hc]
      simp [List.filter_cons, hid, ih (k + 1)]

/-- C7: in the edit-capable wizard's Step 2 submission loop (with every
    create call succeeding), every location carrying a truthy pre-existing
    id is skipped and every location without one is sent exactly once --
    the issued calls are exactly the id-less locations, in order, each with
    the client identifier attached. -/
theorem editWizard_step2_skips_existing_locations
    (cid : String) (locs : List Wizard.LocationPayload) (prevStep : Nat)
    (hcid : cid ≠ "") (hv : (EditWizard.validateStep2 locs).2 = true) :
    (EditWizard.handleSubmitStep2 (some cid) locs prevStep []).calls =
      (locs.filter (fun l => !strTruthy l.id)).map
        (fun l => { l with client_id := some cid }) ∧
    (EditWizard.handleSubmitStep2 (some cid) locs prevStep []).navigated = true := by
  have ht : strTruthy (some cid) = true := by simp [strTruthy, hcid]
  simp [EditWizard.handleSubmitStep2, ht, hv, editCreateLoop_allSuccess]

/-- C7 witness: a concrete edit-mode submission with one existing and one
    new location issues exactly one create call, for the new location. -/
theorem editWizard_step2_skips_existing_locations_witness :
    (EditWizard.handleSubmitStep2 (some "c1") [locWithId, locNoId] 2 []).calls =
      ([locWithId, locNoId].filter (fun l => !strTruthy l.id)).map
        (fun l => { l with client_id := some "c1" }) ∧
    (EditWizard.handleSubmitStep2 (some "c1") [locWithId, locNoId] 2 []).navigated = true :=
  editWizard_step2_skips_existing_locations "c1" [locWithId, locNoId] 2
    (by decide) (by decide)

end Bukit
